import Mathlib

/-!
Verification of the face-reading analysis endpoint
(`src/app/api/face-reading/route.ts`, extended variant).

The handler is embedded shallowly:

* JavaScript runtime values that flow out of `JSON.parse` (and property
  reads on them) are modelled by the inductive `JsValue`; a property read
  on `null`/`undefined`, or calling a string/array method on a value of
  the wrong runtime type, is modelled as `Except.error` (a thrown
  `TypeError`), mirroring the places where the TypeScript code can throw.
* JavaScript numbers are exact rationals; `NaN` is modelled by `none` in
  `JNum := Option ℚ`.  The JSON values the endpoint parses can only hold
  finite numbers, so `JsValue.num` carries a plain rational, while
  arithmetic on possibly-missing fields uses `JNum`.
* The outbound HTTP calls (two classifiers and the narrative generator)
  are modelled by small outcome types (`ExprUpstream`, `AgeUpstream`,
  `GenUpstream`) supplied as oracles to the handler; each constructor
  corresponds to one observable behaviour of the remote endpoint
  (transport failure, non-2xx, 2xx body).
* The two process-wide maps (rate buckets, analysis cache) are explicit
  association lists threaded through the handler.
-/

/-- An exact rational with explicit numerator and denominator; every
value this embedding constructs keeps a positive denominator, and no
operation of the handler compares two differently-scaled representations
for equality, so no normalization is needed.  (Mathlib's `Rat` is not
used because its arithmetic does not reduce inside the kernel, which the
concrete witnesses below rely on.) -/
structure JRat where
  num : Int
  den : Int
  deriving DecidableEq, Repr

/-- The integer `n` as a rational. -/
def qInt (n : Int) : JRat := ⟨n, 1⟩

/-- The two-decimal literal `n/100` (all numeric literals of the source
have at most two decimals). -/
def pct (n : Int) : JRat := ⟨n, 100⟩

/-- Rational addition (positive denominators). -/
def JRat.addQ (a b : JRat) : JRat :=
  ⟨a.num * b.den + b.num * a.den, a.den * b.den⟩

/-- Rational subtraction (positive denominators). -/
def JRat.subQ (a b : JRat) : JRat :=
  ⟨a.num * b.den - b.num * a.den, a.den * b.den⟩

/-- Rational multiplication (positive denominators). -/
def JRat.mulQ (a b : JRat) : JRat :=
  ⟨a.num * b.num, a.den * b.den⟩

/-- Strict order by cross multiplication (positive denominators). -/
def JRat.ltQ (a b : JRat) : Bool :=
  decide (a.num * b.den < b.num * a.den)

/-- Strictly positive test (positive denominators). -/
def JRat.posQ (a : JRat) : Bool := decide (0 < a.num)

/-- `Math.min` on two rationals. -/
def JRat.minQ (a b : JRat) : JRat := if JRat.ltQ b a then b else a

/-- `Math.max` on two rationals. -/
def JRat.maxQ (a b : JRat) : JRat := if JRat.ltQ a b then b else a

/-- Floor of a rational with positive denominator. -/
def JRat.floorQ (a : JRat) : Int := Int.fdiv a.num a.den

/-- JavaScript runtime values reachable from `JSON.parse` output together
with `undefined` (produced by reads of absent properties). -/
inductive JsValue where
  | null
  | undef
  | bool (b : Bool)
  | num (q : JRat)
  | str (s : String)
  | arr (elems : List JsValue)
  | obj (fields : List (String × JsValue))

/-- `null` and `undefined` are the two nullish values (`??` / `?.`). -/
def JsValue.nullish : JsValue → Bool
  | .null => true
  | .undef => true
  | _ => false

/-- JavaScript truthiness.  `JsValue.num` always holds a finite number
(JSON cannot encode `NaN`), so `q ≠ 0` is exact. -/
def JsValue.truthy : JsValue → Bool
  | .null => false
  | .undef => false
  | .bool b => b
  | .num q => decide (q.num ≠ 0)
  | .str s => !s.isEmpty
  | .arr _ => true
  | .obj _ => true

/-- The `??` operator: keep `v` unless it is nullish. -/
def jsOr (v d : JsValue) : JsValue := if v.nullish then d else v

/-- Property read on a base already known to be non-nullish: objects look
the key up (absent keys give `undefined`); primitive and array bases have
none of the property names the handler reads, so they give `undefined`. -/
def jsGet : JsValue → String → JsValue
  | .obj fields, k => (fields.lookup k).getD .undef
  | _, _ => (.undef)

/-- Plain property access `v.k`: throws a `TypeError` when the base is
nullish, otherwise reads the property. -/
def jsGetE (v : JsValue) (k : String) : Except String JsValue :=
  if v.nullish then
    .error ("TypeError: cannot read properties of null/undefined (reading " ++ k ++ ")")
  else
    .ok (jsGet v k)

/-- Optional-chained access `v?.k`: nullish bases give `undefined`. -/
def jsGetOpt (v : JsValue) (k : String) : JsValue :=
  if v.nullish then .undef else jsGet v k

/-- A JavaScript number: `none` models `NaN`, `some q` a finite value. -/
abbrev JNum := Option JRat

/-- Addition with `NaN` propagation. -/
def jadd : JNum → JNum → JNum
  | some a, some b => some (a.addQ b)
  | _, _ => none

/-- Multiplication with `NaN` propagation. -/
def jmul : JNum → JNum → JNum
  | some a, some b => some (a.mulQ b)
  | _, _ => none

/-- `Math.max(0, Math.min(1, x))`; both propagate `NaN`. -/
def jclamp01 : JNum → JNum :=
  Option.map (fun q => JRat.maxQ (qInt 0) (JRat.minQ (qInt 1) q))

/-- `x > 0` on a JavaScript number; false for `NaN`. -/
def jgtZero : JNum → Bool
  | some q => q.posQ
  | none => false

/-- `Math.round`: round half toward positive infinity. -/
def jsRound (q : JRat) : Int := (q.addQ ⟨1, 2⟩).floorQ

/-- `(x).toFixed(0)`: ties pick the larger candidate, which agrees with
`⌊x + 1/2⌋`; `NaN` renders as the string form used by JavaScript. -/
def jsToFixed0 : JNum → String
  | some q => toString (jsRound q)
  | none => "NaN"

/-- JavaScript-equivalent string helpers over the character list (Lean's
built-in `String.trim`, `toUpper`, `toLower`, `toNat?`, `contains` and
`splitOn` do not reduce inside the kernel, so the embedding carries
list-based equivalents). -/
def strTrim (s : String) : String :=
  String.mk (((s.toList.dropWhile Char.isWhitespace).reverse.dropWhile
    Char.isWhitespace).reverse)

/-- `toLowerCase()`. -/
def strToLower (s : String) : String := String.mk (s.toList.map Char.toLower)

/-- `toUpperCase()`. -/
def strToUpper (s : String) : String := String.mk (s.toList.map Char.toUpper)

/-- `includes(c)` for one character. -/
def strContainsChar (s : String) (c : Char) : Bool := s.toList.contains c

/-- The value of a non-empty all-digit numeral (what `Number` receives
from a regex digit-run match). -/
def digitsToNat? (cs : List Char) : Option Int :=
  if cs.isEmpty then none
  else if cs.all Char.isDigit then
    some (cs.foldl (fun acc c => acc * 10 + Int.ofNat (c.toNat - '0'.toNat)) 0)
  else none

/-- `String.prototype.split` on a single separator character. -/
def splitCharAux (c : Char) : List Char → List Char → List String
  | [], cur => [String.mk cur.reverse]
  | x :: xs, cur =>
      if x = c then String.mk cur.reverse :: splitCharAux c xs []
      else splitCharAux c xs (x :: cur)

/-- `s.split(c)` for a one-character separator. -/
def splitOnChar (c : Char) (s : String) : List String :=
  splitCharAux c s.toList []

/-- `Number(v)` coercion.  Finite main cases are exact; numeral strings
are modelled for the digit-only forms the handler actually produces
(regex `\d+` matches), every other string, array or object collapses
to `NaN` — such inputs reach no claim. -/
def jsToNum : JsValue → JNum
  | .num q => some q
  | .bool b => some (qInt (if b then 1 else 0))
  | .null => some (qInt 0)
  | .undef => none
  | .str s => if s = "" then some (qInt 0) else (digitsToNat? s.toList).map (fun n => qInt n)
  | .arr _ => none
  | .obj _ => none

/-- `Number(v ?? d)`: default applies only to nullish `v`. -/
def jsNumOr (v : JsValue) (d : JRat) : JNum :=
  if v.nullish then some d else jsToNum v

/-- Rendering of a number by `String(...)`: integer values print without
a decimal point; non-integer rationals keep an exact fraction form (the
handler only stringifies integer ages, so that form is unexercised). -/
def ratToJsString (q : JRat) : String :=
  if q.num % q.den = 0 then toString (Int.fdiv q.num q.den)
  else toString q.num ++ "/" ++ toString q.den

/-- `String(v)` coercion; arrays join their elements with commas and
render nullish elements as the empty string, per `Array.prototype.join`. -/
def jsToString : JsValue → String
  | .str s => s
  | .num q => ratToJsString q
  | .bool b => if b then "true" else "false"
  | .null => "null"
  | .undef => "undefined"
  | .obj _ => "[object Object]"
  | .arr xs => arrJoin xs
where arrJoin : List JsValue → String
  | [] => ""
  | [x] => if x.nullish then "" else jsToString x
  | x :: y :: xs =>
      (if x.nullish then "" else jsToString x) ++ "," ++ arrJoin (y :: xs)

/-- `v.trim()` when `v` is already known non-nullish: strings trim,
every other receiver throws a `TypeError`. -/
def jsTrimE : JsValue → Except String String
  | .str s => .ok (strTrim s)
  | _ => .error "TypeError: trim is not a function"

/-- Maximal runs of decimal digits in a character list (the regex
`/\d+/g`), accumulating the current run in reverse. -/
def digitRunsAux : List Char → List Char → List String
  | [], cur => if cur.isEmpty then [] else [String.mk cur.reverse]
  | c :: cs, cur =>
      if c.isDigit then digitRunsAux cs (c :: cur)
      else if cur.isEmpty then digitRunsAux cs []
      else String.mk cur.reverse :: digitRunsAux cs []

/-- All matches of `label.match(/\d+/g)`. -/
def digitRuns (s : String) : List String :=
  digitRunsAux s.toList []

/-- `AgeRange` from the source: numeric bounds extracted from a label. -/
structure AgeRange where
  min : Option Int
  max : Option Int
  deriving DecidableEq, Repr

/-- `parseAgeLabelRange` from the source.  `Number` applied to a digit-only
match always yields a finite value, so the `Number.isFinite` filter keeps
every parsed match; the nested `label.match(/\d+/)` probe inside the
`matches` = empty branch can never succeed (no digit run exists there), so
that branch collapses to `{min: null, max: null}` exactly as in the code. -/
def parseAgeLabelRange (label : String) : AgeRange :=
  if label = "" then ⟨none, none⟩
  else
    let ms := digitRuns label
    if ms.isEmpty then ⟨none, none⟩
    else
      let numbers : List Int := ms.filterMap (fun m => digitsToNat? m.toList)
      match numbers with
      | [] => ⟨none, none⟩
      | [value] => ⟨some value, if strContainsChar label '+' then none else some value⟩
      | first :: second :: _ =>
          ⟨some (Min.min first second), some (Max.max first second)⟩

/-- `computeEstimatedAge` from the source: midpoint of a closed range
(JavaScript `Math.round`), a single bound when only one exists, else the
direct numeric fallback when present. -/
def computeEstimatedAge (range : AgeRange) (fallback : Option JRat) : Option Int :=
  match range.min, range.max with
  | some lo, some hi => some (jsRound ⟨lo + hi, 2⟩)
  | some lo, none => some lo
  | none, some hi => some hi
  | none, none =>
      match fallback with
      | some q => some (jsRound q)
      | none => none

/-- `ExpressionInsight` from the source. -/
structure ExpressionInsight where
  narrative : String
  confidence : JNum
  label : String
  deriving DecidableEq, Repr

/-- `AgeInsight` from the source. -/
structure AgeInsight where
  label : String
  confidence : JNum
  estimated : Option Int
  range : AgeRange
  headline : String
  narrative : String
  deriving DecidableEq, Repr

/-- One row of `AGE_STAGE_DESCRIPTORS`; `max := none` models the
`Number.POSITIVE_INFINITY` bound of the last row (and is unused on the
default descriptor, which has no `max` in the source). -/
structure StageDescriptor where
  max : Option Int
  label : String
  narrative : String
  prompt : String
  deriving DecidableEq, Repr

/-- `AGE_STAGE_DESCRIPTORS` from the source. -/
def AGE_STAGE_DESCRIPTORS : List StageDescriptor :=
  [ { max := some 12, label := "Pra-remaja",
      narrative := "Fokus pada kebiasaan belajar ringan, eksplorasi minat, dan pendampingan orang tua agar tetap menyenangkan.",
      prompt := "pra-remaja yang membutuhkan aktivitas eksploratif dan pendampingan intensif" },
    { max := some 15, label := "Remaja awal",
      narrative := "Sedang memasuki masa SMP; bekali dengan dasar literasi digital, disiplin belajar, dan proyek kecil yang menyenangkan.",
      prompt := "pelajar SMP yang baru mengeksplorasi minat jurusan" },
    { max := some 18, label := "Remaja akhir",
      narrative := "Usia SMA/SMK; saat yang tepat untuk menguatkan portofolio, pengalaman organisasi, dan memilih jalur lanjutan.",
      prompt := "pelajar SMA/SMK yang bersiap memilih jurusan lanjutan" },
    { max := some 24, label := "Dewasa muda",
      narrative := "Rentang kuliah awal; arahkan pada pengalaman magang, proyek penelitian, dan perluasan jejaring profesional.",
      prompt := "mahasiswa awal yang menguatkan fondasi karier" },
    { max := some 35, label := "Profesional awal",
      narrative := "Mulai meniti karier; fokus pada spesialisasi skill, sertifikasi, dan kepemimpinan proyek.",
      prompt := "profesional muda yang ingin memantapkan spesialisasi" },
    { max := some 50, label := "Profesional madya",
      narrative := "Tahap mengembangkan peran strategis; perkuat mentoring, manajemen tim, dan keseimbangan hidup.",
      prompt := "profesional madya yang ingin memperluas peran strategis" },
    { max := none, label := "Mentor berpengalaman",
      narrative := "Pengalaman matang; saatnya membagikan wawasan, menjadi mentor, dan merancang legacy karya.",
      prompt := "mentor berpengalaman yang membina generasi berikutnya" } ]

/-- `DEFAULT_STAGE_DESCRIPTOR` from the source. -/
def DEFAULT_STAGE_DESCRIPTOR : StageDescriptor :=
  { max := none, label := "Rentang belum jelas",
    narrative := "AI membaca sinyal usia yang unik, jadi tebakan dibuat santai. Jika ingin hasil lebih tajam, boleh coba ulang foto dengan pencahayaan merata.",
    prompt := "pelajar dengan usia visual yang belum terbaca jelas" }

/-- `describeAgeStage` from the source.  A missing age (the `null` the
callers can pass) takes the default descriptor; otherwise the first row
whose bound is not exceeded is selected, the `??`-fallback to the last
row being unreachable because the last bound is infinite. -/
def describeAgeStage (age : Option Int) : StageDescriptor :=
  match age with
  | none => DEFAULT_STAGE_DESCRIPTOR
  | some a =>
      (AGE_STAGE_DESCRIPTORS.find? (fun item =>
          match item.max with
          | none => true
          | some m => decide (a ≤ m))).getD
        (AGE_STAGE_DESCRIPTORS.getLastD DEFAULT_STAGE_DESCRIPTOR)

/-- `formatAgeRangeText` from the source (the dash is the en dash used in
the template literal). -/
def formatAgeRangeText (range : AgeRange) (estimated : Option Int) : String :=
  match range.min, range.max with
  | some lo, some hi => toString lo ++ "–" ++ toString hi ++ " tahun"
  | some lo, none => toString lo ++ "+ tahun"
  | _, _ =>
      match estimated with
      | some e => "sekitar " ++ toString e ++ " tahun"
      | none => ""

/-- `buildAgeHeadline` from the source; string truthiness is
non-emptiness. -/
def buildAgeHeadline (range : AgeRange) (estimated : Option Int) : String :=
  let formatted := formatAgeRangeText range estimated
  if formatted ≠ "" then "Perkiraan usia " ++ formatted
  else "Perkiraan usia belum terbaca"

/-- `buildAgeNarrative` from the source. -/
def buildAgeNarrative (range : AgeRange) (estimated : Option Int)
    (confidence : JNum) : String :=
  let descriptor := describeAgeStage
    (match estimated with
     | some e => some e
     | none =>
         match range.min with
         | some lo => some lo
         | none => range.max)
  let rangeText := formatAgeRangeText range estimated
  let confidenceText :=
    if jgtZero confidence then
      "Keyakinan model sekitar " ++ jsToFixed0 (jmul confidence (some (qInt 100))) ++ "%."
    else
      "Model belum yakin dengan hasil ini."
  if rangeText ≠ "" then
    "AI memperkirakan usia visual berada di " ++ rangeText ++ ". " ++
      descriptor.narrative ++ " " ++ confidenceText ++
      " Ingat, tebakan ini hanya referensi santai dan bukan identitas resmi."
  else
    descriptor.narrative ++ " " ++ confidenceText ++
      " Ulangi foto dengan pencahayaan lebih merata agar AI dapat membaca usia lebih baik."

/-- One row of `FALLBACK_AGE_PRESETS`. -/
structure AgePreset where
  range : AgeRange
  estimated : Int
  confidence : JRat
  label : String
  deriving DecidableEq, Repr

/-- The `default` row of `FALLBACK_AGE_PRESETS`. -/
def defaultAgePreset : AgePreset :=
  { range := ⟨some 16, some 19⟩, estimated := 17, confidence := pct 34, label := "16-19" }

/-- `FALLBACK_AGE_PRESETS` from the source. -/
def FALLBACK_AGE_PRESETS : List (String × AgePreset) :=
  [ ("happiness", { range := ⟨some 16, some 20⟩, estimated := 18, confidence := pct 38, label := "16-20" }),
    ("surprise",  { range := ⟨some 16, some 19⟩, estimated := 17, confidence := pct 36, label := "16-19" }),
    ("sadness",   { range := ⟨some 17, some 21⟩, estimated := 19, confidence := pct 34, label := "17-21" }),
    ("anger",     { range := ⟨some 18, some 24⟩, estimated := 21, confidence := pct 33, label := "18-24" }),
    ("disgust",   { range := ⟨some 17, some 23⟩, estimated := 20, confidence := pct 33, label := "17-23" }),
    ("fear",      { range := ⟨some 16, some 22⟩, estimated := 19, confidence := pct 32, label := "16-22" }),
    ("contempt",  { range := ⟨some 18, some 24⟩, estimated := 21, confidence := pct 35, label := "18-24" }),
    ("neutral",   { range := ⟨some 16, some 20⟩, estimated := 18, confidence := pct 35, label := "16-20" }),
    ("unknown",   { range := ⟨some 16, some 19⟩, estimated := 17, confidence := pct 33, label := "16-19" }),
    ("default",   defaultAgePreset) ]

/-- The property names every plain object literal inherits from
`Object.prototype`: indexing `OBJ[k]` at one of these keys yields the
inherited member (a truthy function or object, or the prototype object
for the `__proto__` accessor) instead of `undefined`, so a
`OBJ[k] ?? fallbackRow` lookup does NOT fall through to the fallback. -/
def OBJECT_PROTO_KEYS : List String :=
  [ "constructor", "__proto__", "toString", "toLocaleString", "valueOf",
    "hasOwnProperty", "isPrototypeOf", "propertyIsEnumerable",
    "__defineGetter__", "__defineSetter__", "__lookupGetter__",
    "__lookupSetter__" ]

/-- The `AgeInsight` built from one preset row (the body of
`buildFallbackAgeInsight` after the row has been selected). -/
def agePresetInsight (preset : AgePreset) : AgeInsight :=
  let range : AgeRange := ⟨preset.range.min, preset.range.max⟩
  let estimated := preset.estimated
  let confidence : JNum := some (JRat.maxQ (qInt 0) (JRat.minQ (qInt 1) preset.confidence))
  { label := preset.label,
    confidence,
    estimated := some estimated,
    range,
    headline := buildAgeHeadline range (some estimated),
    narrative := buildAgeNarrative range (some estimated) confidence }

/-- `buildFallbackAgeInsight` from the source: the deterministic preset
keyed by the lowercased companion expression label.  The selection is
`FALLBACK_AGE_PRESETS[key] ?? FALLBACK_AGE_PRESETS.default`: an own key
picks its row and an unknown key falls through to the `default` row, but
a key naming an inherited `Object.prototype` member yields that truthy
member, `??` keeps it, and the following `preset.range.min` read throws
a `TypeError` (`preset.range` is `undefined` on a function or on
`Object.prototype`). -/
def buildFallbackAgeInsight (expression : Option ExpressionInsight) :
    Except String AgeInsight :=
  let key :=
    match expression with
    | some e => strToLower e.label
    | none => "default"
  match FALLBACK_AGE_PRESETS.lookup key with
  | some preset => .ok (agePresetInsight preset)
  | none =>
      if key ∈ OBJECT_PROTO_KEYS then
        .error "TypeError: cannot read properties of null/undefined (reading min)"
      else
        .ok (agePresetInsight defaultAgePreset)

/-- Stable insertion of one element into a score-descending list.  The
engine treats a `NaN` comparator result as `+0` (ES `SortCompare`), so a
pair whose comparison is `NaN` keeps its original relative order, the
same as a pair of equal keys. -/
def insertByKeyDesc (key : JsValue → JNum) (x : JsValue) :
    List JsValue → List JsValue
  | [] => [x]
  | y :: ys =>
      match key y, key x with
      | some ky, some kx =>
          if JRat.ltQ kx ky then y :: insertByKeyDesc key x ys else x :: y :: ys
      | _, _ => x :: y :: ys

/-- `[...xs].sort((a, b) => Number(b?.score ?? 0) - Number(a?.score ?? 0))`:
a stable descending sort on the coerced `score` key. -/
def sortByScoreDesc (xs : List JsValue) : List JsValue :=
  xs.foldr (insertByKeyDesc (fun v => jsNumOr (jsGetOpt v "score") (qInt 0))) []

/-- The `AgeCandidate` record extracted inside `detectAge`. -/
structure AgeCandidate where
  label : String
  score : JNum
  directAge : Option JRat
  deriving DecidableEq, Repr

/-- `Number(a ?? b ?? d)`: first non-nullish operand, coerced. -/
def jsCoalesce2 (a b : JsValue) (d : JRat) : JNum :=
  if a.nullish then (if b.nullish then some d else jsToNum b) else jsToNum a

/-- The object half of `extractCandidate`: a wrapped `age_predictions`
array (falling through when it yields no truthy top entry), then a direct
numeric `age`, then a bare string `label`. -/
def extractFromObj (raw : JsValue) : Option AgeCandidate :=
  let fromPredictions : Option AgeCandidate :=
    match jsGet raw "age_predictions" with
    | .arr ys =>
        match (sortByScoreDesc ys).head? with
        | some top =>
            if top.truthy then
              some { label :=
                       match jsGet top "label" with
                       | .str s => s
                       | _ =>
                           match jsGet top "age" with
                           | .num q => ratToJsString q
                           | _ => "unknown",
                     score := jsCoalesce2 (jsGet top "score") (jsGet top "confidence") (pct 30),
                     directAge := none }
            else none
        | none => none
    | _ => none
  match fromPredictions with
  | some c => some c
  | none =>
      match jsGet raw "age" with
      | .num age =>
          some { label := ratToJsString age,
                 score := jsCoalesce2 (jsGet raw "confidence") (jsGet raw "score") (pct 55),
                 directAge := some age }
      | _ =>
          match jsGet raw "label" with
          | .str s =>
              some { label := s,
                     score := jsCoalesce2 (jsGet raw "score") (jsGet raw "confidence") (pct 40),
                     directAge := none }
          | _ => none

/-- `extractCandidate` from `detectAge`: arrays take their top-scoring
truthy entry; non-null objects go through `extractFromObj`; every other
JSON value (including `null`, excluded by the `raw &&` guard) yields no
candidate. -/
def extractCandidate (raw : JsValue) : Option AgeCandidate :=
  match raw with
  | .arr xs =>
      match (sortByScoreDesc xs).head? with
      | some top =>
          if top.truthy then
            some { label := jsToString (jsOr (jsGet top "label") (.str "unknown")),
                   score := jsNumOr (jsGet top "score") (pct 35),
                   directAge := none }
          else none
      | none => none
  | .obj fields => extractFromObj (.obj fields)
  | _ => none

/-- Observable behaviours of the age-classifier endpoint: rejected fetch,
non-2xx response, or a 2xx response whose body either fails `json()`
(`none`) or parses to a JSON value. -/
inductive AgeUpstream where
  | netFail
  | notOk (detail : String)
  | okBody (body : Option JsValue)

/-- `detectAge` from the source.  The whole body sits inside
`try { ... } catch { return buildFallbackAgeInsight(expression) }`, so a
rejected fetch or a throwing `response.json()` reaches the catch,
exactly like the explicit `!response.ok` and no-candidate early returns
reach `buildFallbackAgeInsight` directly.  Every failure path therefore
yields the result of `buildFallbackAgeInsight expression` — including
its throw for a companion label naming an `Object.prototype` member: a
preset call that throws inside the `try` is caught, but the catch block
calls `buildFallbackAgeInsight` again and that second throw escapes
`detectAge`.  `candidate.score` is always a number, so
`candidate.score ?? 0.35` and `String(candidate.label ?? "")` reduce to
the fields themselves. -/
def detectAge (upstream : AgeUpstream) (expression : Option ExpressionInsight) :
    Except String AgeInsight :=
  match upstream with
  | .netFail => buildFallbackAgeInsight expression
  | .notOk _ => buildFallbackAgeInsight expression
  | .okBody none => buildFallbackAgeInsight expression
  | .okBody (some raw) =>
      match extractCandidate raw with
      | none => buildFallbackAgeInsight expression
      | some candidate =>
          let range := parseAgeLabelRange candidate.label
          let estimated := computeEstimatedAge range candidate.directAge
          let confidence := jclamp01 candidate.score
          if range.min = none ∧ range.max = none ∧ estimated = none then
            buildFallbackAgeInsight expression
          else
            .ok { label := candidate.label,
                  confidence,
                  estimated,
                  range,
                  headline := buildAgeHeadline range estimated,
                  narrative := buildAgeNarrative range estimated confidence }

/-- Subtraction with `NaN` propagation (the `-` in the sort comparator
coerces both operands with `ToNumber`). -/
def jsub : JNum → JNum → JNum
  | some a, some b => some (a.subQ b)
  | _, _ => none

/-- `EXPRESSION_LABELS` from the source. -/
def EXPRESSION_LABELS : List (String × String) :=
  [ ("neutral", "Wajah tampak netral dan tenang."),
    ("happiness", "Ekspresi bahagia mendominasi, menunjukkan energi positif dan terbuka."),
    ("surprise", "Ada unsur terkejut atau rasa kagum yang kuat."),
    ("sadness", "Ekspresi sedih terlihat, perlunya dukungan emosional."),
    ("anger", "Wajah menunjukkan ketegasan dan fokus tinggi, mungkin ada sedikit ketegangan."),
    ("disgust", "Ekspresi kurang nyaman atau ada hal yang membuat kurang sreg."),
    ("fear", "Ada sinyal kehati-hatian tinggi atau keraguan yang perlu ditenangkan."),
    ("contempt", "Ekspresi kritis, menggambarkan standar tinggi terhadap diri atau sekitar.") ]

/-- `DEFAULT_EXPRESSION` from the source (extended variant). -/
def DEFAULT_EXPRESSION : String :=
  "Ekspresi wajah tampak netral dan tenang; AI menganggapmu menjaga emosi tetap seimbang."

/-- Stable insertion under a throwing comparator.  `SortCompare(x, y) > 0`
moves `x` past `y`; a zero or `NaN` result keeps the original relative
order (ES maps a `NaN` comparator result to `+0`). -/
def insertByCmpE (cmp : JsValue → JsValue → Except String JNum) (x : JsValue) :
    List JsValue → Except String (List JsValue)
  | [] => pure [x]
  | y :: ys => do
      let c ← cmp x y
      match c with
      | some q =>
          if q.posQ then do
            let rest ← insertByCmpE cmp x ys
            pure (y :: rest)
          else
            pure (x :: y :: ys)
      | none => pure (x :: y :: ys)

/-- Stable sort under a throwing comparator, inserting from the right so
earlier elements stay first among equal keys.  The engine's comparator
invocation order is implementation-defined; an element whose comparison
throws makes the whole sort throw, which is the only behaviour the
handler can observe. -/
def sortByCmpE (cmp : JsValue → JsValue → Except String JNum) :
    List JsValue → Except String (List JsValue)
  | [] => pure []
  | x :: xs => do
      let rest ← sortByCmpE cmp xs
      insertByCmpE cmp x rest

/-- The comparator `(a, b) => b.score - a.score` of `detectExpression`:
plain (throwing) property reads, then numeric subtraction. -/
def exprScoreCmp (a b : JsValue) : Except String JNum := do
  let sb ← jsGetE b "score"
  let sa ← jsGetE a "score"
  pure (jsub (jsToNum sb) (jsToNum sa))

/-- Observable behaviours of the expression-classifier endpoint. -/
inductive ExprUpstream where
  | netFail
  | notOk (detail : String)
  | okBody (body : Option JsValue)

/-- `detectExpression` from the source.  The function has no `try`/`catch`:
a rejected fetch or a throwing `response.json()` propagates to the caller
(`Except.error`); a non-2xx response returns the 0.42 default and an
empty or non-array body the 0.4 default, both labelled `"neutral"`.  On a
non-empty array the comparator's plain `.score` reads and the
`top.label.toLowerCase()` call are the throw points. -/
def detectExpression (upstream : ExprUpstream) : Except String ExpressionInsight :=
  match upstream with
  | .netFail => .error "TypeError: fetch failed"
  | .notOk _ =>
      .ok { narrative := DEFAULT_EXPRESSION, confidence := some (pct 42), label := "neutral" }
  | .okBody none => .error "SyntaxError: response body is not valid JSON"
  | .okBody (some data) =>
      match data with
      | .arr (x :: xs) => do
          let sorted ← sortByCmpE exprScoreCmp (x :: xs)
          match sorted.head? with
          | none => .error "unreachable: sort of a non-empty list is non-empty"
          | some top => do
              let lbl ← jsGetE top "label"
              match lbl with
              | .str ls =>
                  let score := jsToNum (jsGet top "score")
                  let narrative :=
                    match EXPRESSION_LABELS.lookup (strToLower ls) with
                    | some refined => refined
                    | none =>
                        "Ekspresi dominan: " ++ ls ++ " dengan tingkat keyakinan " ++
                          jsToFixed0 (jmul score (some (qInt 100))) ++ "%."
                  pure { narrative, confidence := jclamp01 score, label := ls }
              | _ => .error "TypeError: toLowerCase is not a function"
      | _ =>
          .ok { narrative := DEFAULT_EXPRESSION, confidence := some (pct 40), label := "neutral" }

/-- The closed track/major enumeration (keys of `MAJOR_LABELS`). -/
inductive MajorCode where
  | RPL
  | DKV
  | TKJ
  deriving DecidableEq, Repr

/-- The enumeration key as the string used in the source records. -/
def codeStr : MajorCode → String
  | .RPL => "RPL"
  | .DKV => "DKV"
  | .TKJ => "TKJ"

/-- `MAJOR_LABELS` from the source. -/
def MAJOR_LABELS : MajorCode → String
  | .RPL => "Rekayasa Perangkat Lunak"
  | .DKV => "Desain Komunikasi Visual"
  | .TKJ => "Teknik Komputer dan Jaringan"

/-- `MAJOR_CODES = Object.keys(MAJOR_LABELS)` in declaration order. -/
def MAJOR_CODES : List MajorCode := [.RPL, .DKV, .TKJ]

/-- `DEFAULT_MAJOR_NOTES` from the source. -/
def DEFAULT_MAJOR_NOTES : MajorCode → String
  | .RPL => "Cocok untuk pemikir analitis yang senang membangun solusi digital."
  | .DKV => "Selaras bagi yang ekspresif dan ingin menyalurkan kreativitas visual."
  | .TKJ => "Pas untuk pribadi teknis yang suka merakit dan menjaga sistem teknologi."

/-- The `indicator` enumeration of `ManifestingPoint`. -/
inductive Indicator where
  | strength
  | opportunity
  | warning
  deriving DecidableEq, Repr

/-- The indicator as the JSON string the generator exchanges. -/
def indicatorStr : Indicator → String
  | .strength => "strength"
  | .opportunity => "opportunity"
  | .warning => "warning"

/-- `ManifestingPoint` from the source: every field optional. -/
structure MPoint where
  title : Option String
  description : Option String
  indicator : Option Indicator
  deriving DecidableEq, Repr

/-- `createPoint` from the source. -/
def createPoint (indicator : Indicator) (title description : String) : MPoint :=
  { indicator := some indicator, title := some title, description := some description }

/-- `DEFAULT_MAJOR_POINTS` from the source. -/
def DEFAULT_MAJOR_POINTS : MajorCode → List MPoint
  | .RPL =>
      [ createPoint .strength "Logika terstruktur"
          "Mood yang stabil menandakan kemampuan menganalisis pola dan membangun solusi bertahap.",
        createPoint .opportunity "Eksperimen digital"
          "Gunakan rasa ingin tahu untuk mencoba membuat aplikasi atau automasi sederhana." ]
  | .DKV =>
      [ createPoint .strength "Ekspresi kreatif"
          "Energi ekspresif cocok diterjemahkan menjadi karya visual dan storytelling kuat.",
        createPoint .opportunity "Sensitivitas estetika"
          "Asah kepekaan warna dan komposisi lewat latihan visual harian." ]
  | .TKJ =>
      [ createPoint .strength "Ketekunan teknis"
          "Mood fokus menunjukkan ketelitian tinggi saat memecahkan masalah perangkat.",
        createPoint .opportunity "Problem solving nyata"
          "Gunakan rasa penasaran untuk membongkar dan memahami cara kerja jaringan." ]

/-- One row of `DEFAULT_MAJOR_FOCUS`. -/
structure MajorFocus where
  langkah : String
  kebiasaan : List String
  deriving DecidableEq, Repr

/-- `DEFAULT_MAJOR_FOCUS` from the source. -/
def DEFAULT_MAJOR_FOCUS : MajorCode → MajorFocus
  | .RPL =>
      { langkah := "Luangkan 30 menit per hari untuk latihan logika atau coding dasar di platform gratis.",
        kebiasaan :=
          [ "Catat ide masalah yang ingin kamu pecahkan lalu coba terjemahkan ke konsep aplikasi.",
            "Ikut komunitas pemrograman pemula seminggu sekali untuk review kode sederhana." ] }
  | .DKV =>
      { langkah := "Buat moodboard mingguan dari referensi visual untuk melatih rasa estetika.",
        kebiasaan :=
          [ "Lakukan sketsa cepat 10 menit setiap hari dengan tema berbeda.",
            "Unggah karya ke media sosial atau forum desain untuk meminta umpan balik." ] }
  | .TKJ =>
      { langkah := "Kerjakan proyek mini jaringan atau perakitan perangkat setiap pekan dan dokumentasikan prosesnya.",
        kebiasaan :=
          [ "Tulis checklist troubleshooting setiap kali menemukan masalah teknis.",
            "Ikut kanal komunitas teknologi untuk berdiskusi minimal dua kali seminggu." ] }

/-- `isMajorCode`: `hasOwnProperty` on the `MAJOR_LABELS` record. -/
def toMajorCode? (value : String) : Option MajorCode :=
  if value = "RPL" then some .RPL
  else if value = "DKV" then some .DKV
  else if value = "TKJ" then some .TKJ
  else none

/-- `normalizeMajorCode` on an (optional) string argument:
`(value ?? "").toUpperCase().trim()`, then membership in the enumeration
with `"RPL"` as the designated default. -/
def normalizeMajorCodeStr (value : Option String) : MajorCode :=
  let upper := strTrim (strToUpper (value.getD ""))
  (toMajorCode? upper).getD .RPL

/-- `normalizeMajorCode` applied to a raw runtime value (as the
normalization step does): nullish collapses to `""`, a string is
normalized, any other receiver makes `.toUpperCase()` throw. -/
def normalizeMajorCodeE (value : JsValue) : Except String MajorCode :=
  if value.nullish then .ok (normalizeMajorCodeStr none)
  else
    match value with
    | .str s => .ok (normalizeMajorCodeStr (some s))
    | _ => .error "TypeError: toUpperCase is not a function"

/-- `resolveMajorName` applied to raw runtime values: a truthy provided
name must be a string (`.trim()` throws otherwise) and wins when its trim
is non-empty; otherwise the label of the normalized code. -/
def resolveMajorNameE (code providedName : JsValue) : Except String String := do
  let majorCode ← normalizeMajorCodeE code
  if providedName.truthy then do
    let trimmed ← jsTrimE providedName
    if trimmed ≠ "" then pure trimmed else pure (MAJOR_LABELS majorCode)
  else
    pure (MAJOR_LABELS majorCode)

/-- `FallbackTemplate` from the source. -/
structure FallbackTemplate where
  energyTone : String
  personality : String
  major : MajorCode
  karir : List MPoint
  masaDepan : List MPoint
  alasan : Option (List MPoint)
  langkah : Option String
  kebiasaan : Option (List String)
  alternatifNotes : Option (List (MajorCode × String))
  confidenceModifier : Option JRat
  deriving DecidableEq, Repr

/-- The `default` row of `FALLBACK_TEMPLATES`. -/
def defaultFallbackTemplate : FallbackTemplate :=
  { energyTone := "Energi wajah stabil; manfaatkan untuk menjaga ritme eksplorasi kreatif secara konsisten.",
    personality := "Karakter adaptif dan tangguh, tinggal menguatkan keberanian menampilkan karya.",
    major := .DKV,
    karir :=
      [ createPoint .strength "Sense visual terarah"
          "Ekspresimu menunjukkan kemampuan menjaga detail sehingga cocok merancang konten visual yang rapi.",
        createPoint .opportunity "Perkuat storytelling"
          "Coba rutin membuat moodboard dan menarasikan ide agar pesan kreatif tersampaikan kuat." ],
    masaDepan :=
      [ createPoint .opportunity "Bangun portofolio lintas media"
          "Eksperimen dengan ilustrasi, motion, dan desain UI supaya identitas kreatif makin terlihat.",
        createPoint .warning "Jaga konsistensi ritme"
          "Atur jadwal istirahat agar inspirasi tetap segar dan tidak burnout saat menyelesaikan proyek panjang." ],
    alasan := some
      [ createPoint .strength "Studio kreatif lengkap"
          "DKV menyediakan laboratorium multimedia dan mentor visual untuk mengasah ide menjadi karya nyata.",
        createPoint .opportunity "Eksperimen lintas format"
          "Setiap mata pelajaran DKV membuka peluang mencoba berbagai media sehingga potensi kreatifmu tidak monoton." ],
    langkah := none,
    kebiasaan := none,
    alternatifNotes := some
      [ (.RPL, "Jika ingin mengemas ide ke aplikasi interaktif, RPL membantumu menerjemahkan konsep ke produk digital."),
        (.TKJ, "Bila tertarik pada perangkat dan jaringan, TKJ menawarkan praktik teknis yang melatih ketelitianmu.") ],
    confidenceModifier := some (pct (-15)) }

/-- `FALLBACK_TEMPLATES` from the source, in declaration order. -/
def FALLBACK_TEMPLATES : List (String × FallbackTemplate) :=
  [ ("default", defaultFallbackTemplate),
    ("neutral",
      { energyTone := "Ekspresi netral menggambarkan kestabilan dan kesiapan menerima pelajaran baru.",
        personality := "Karakter fleksibel, mudah menyesuaikan dengan berbagai situasi belajar.",
        major := .TKJ,
        karir :=
          [ createPoint .strength "Kerapian sistem"
              "Ketelitianmu membantu menjaga perangkat dan jaringan tetap stabil meski di bawah tekanan.",
            createPoint .opportunity "Kolaborasi troubleshooting"
              "Libatkan teman untuk menyelesaikan kasus jaringan sederhana agar komunikasi teknismu semakin matang." ],
        masaDepan :=
          [ createPoint .opportunity "Spesialis infrastruktur digital"
              "Bidang jaringan, cloud dasar, atau keamanan memberi banyak jalur peningkatan karier.",
            createPoint .warning "Terus update teknologi"
              "Jadwalkan belajar rutin agar tidak tertinggal perkembangan tools dan standar terbaru." ],
        alasan := none,
        langkah := none,
        kebiasaan := none,
        alternatifNotes := some
          [ (.RPL, "Jika ingin menulis automasi untuk solusi perangkat, RPL bisa membantu memadukan logika dan sistem."),
            (.DKV, "Untuk menyalurkan sisi kreatif, DKV menawarkan eksplorasi visual yang segar.") ],
        confidenceModifier := none }),
    ("happiness",
      { energyTone := "Energi wajah ceria dan hangat, mudah membangun situasi kolaboratif.",
        personality := "Karakter supel serta ekspresif, cocok memimpin aktivitas kreatif.",
        major := .DKV,
        karir :=
          [ createPoint .strength "Karisma tim"
              "Aura positif memudahkan mengambil peran koordinasi dalam proyek bersama.",
            createPoint .opportunity "Salurkan ide visual"
              "Eksplor kelas multimedia atau desain untuk menyalurkan imajinasi." ],
        masaDepan :=
          [ createPoint .opportunity "Bangun portofolio"
              "Kumpulkan hasil karya tiap bulan sebagai bukti konsistensi kreativitas.",
            createPoint .warning "Atur prioritas"
              "Gunakan to-do list harian agar energi tidak terpecah ke terlalu banyak aktivitas." ],
        alasan := some
          [ createPoint .strength "Studio kreatif lengkap"
              "Jurusan DKV menyediakan fasilitas desain dan mentor kreatif untuk menyalurkan imajinasi.",
            createPoint .opportunity "Portofolio kuat"
              "Tiap proyek desain bisa dijadikan portofolio untuk menembus industri kreatif sejak dini." ],
        langkah := some "Susun portofolio mini berisi proyek sekolah atau karya mandiri dalam 3 bulan ke depan.",
        kebiasaan := some
          [ "Dokumentasikan progres proyek mingguan dalam bentuk foto atau video pendek.",
            "Ikut komunitas kreatif daring untuk bertukar ide dan feedback." ],
        alternatifNotes := some
          [ (.RPL, "Jika ingin menyalurkan ide ke aplikasi interaktif, RPL bisa jadi kombinasi yang seru."),
            (.TKJ, "Energi positifmu juga bisa menghidupkan tim teknis di jurusan TKJ.") ],
        confidenceModifier := none }),
    ("anger",
      { energyTone := "Energi tegas menonjol, cocok untuk peran yang membutuhkan keberanian keputusan.",
        personality := "Karakter kompetitif dan berorientasi hasil, butuh kanal produktif agar energi tersalurkan.",
        major := .TKJ,
        karir :=
          [ createPoint .strength "Kecepatan respon"
              "Ketegasanmu membantu menyelesaikan tugas operasional di bawah tekanan.",
            createPoint .warning "Kelola emosi"
              "Latih teknik napas atau olahraga ringan sebelum mengambil keputusan penting." ],
        masaDepan :=
          [ createPoint .opportunity "Peran kepemimpinan"
              "Ambil posisi koordinator proyek untuk menyalurkan insting memimpin.",
            createPoint .warning "Bangun empati"
              "Sisihkan waktu mendengar masukan tim agar keputusan lebih diterima." ],
        alasan := some
          [ createPoint .strength "Tantangan teknis nyata"
              "TKJ memberi banyak praktik lapangan untuk menyalurkan energi kompetitifmu.",
            createPoint .opportunity "Simulasi industri"
              "Kegiatan prakerin menyiapkan mental menghadapi tekanan kerja sebenarnya." ],
        langkah := some "Terapkan metode GTD (Getting Things Done) sederhana untuk menjaga fokus prioritas.",
        kebiasaan := some
          [ "Mulai hari dengan 5 menit pernapasan atau peregangan.",
            "Catat pemicu emosi dan siapkan respon alternatif yang lebih tenang." ],
        alternatifNotes := some
          [ (.RPL, "Jika ingin menyalurkan ketegasan lewat problem solving digital, RPL bisa dicoba."),
            (.DKV, "Energi besar juga dapat diarahkan membuat konten berpengaruh di DKV.") ],
        confidenceModifier := none }),
    ("sadness",
      { energyTone := "Energi terlihat lembut dan empatik, mudah menangkap perasaan orang lain.",
        personality := "Karakter peduli, cocok pada peran pelayanan atau pendampingan.",
        major := .RPL,
        karir :=
          [ createPoint .strength "Empati tinggi"
              "Kepekaan emosimu memberi nilai tambah pada bidang sosial atau pendidikan.",
            createPoint .opportunity "Bangun daya juang"
              "Perkuat ketahanan mental melalui journaling dan dukungan komunitas." ],
        masaDepan :=
          [ createPoint .opportunity "Solusi berdampak"
              "Menciptakan aplikasi bantu belajar atau kesehatan mental bisa jadi fokus menarik.",
            createPoint .warning "Jaga semangat"
              "Tetapkan penghargaan diri setiap kali menyelesaikan modul atau proyek." ],
        alasan := some
          [ createPoint .strength "Kolaborasi empatik"
              "Proyek RPL menuntut kerja tim sehingga empati kamu menjadi keunggulan.",
            createPoint .opportunity "Transformasi ide jadi solusi"
              "Mood sensitif mempermudahmu merancang fitur yang benar-benar membantu pengguna." ],
        langkah := none,
        kebiasaan := some
          [ "Refleksikan emosi dan ide solusi dalam jurnal setiap malam.",
            "Libatkan teman untuk pair programming ringan seminggu sekali." ],
        alternatifNotes := some
          [ (.DKV, "Jika ingin menyalurkan emosi lewat visual, DKV bisa menjadi ruang berekspresi."),
            (.TKJ, "TKJ cocok bila kamu ingin fokus ke sistem yang menjamin kenyamanan banyak orang.") ],
        confidenceModifier := none }),
    ("surprise",
      { energyTone := "Ekspresi penuh rasa ingin tahu, cepat menangkap informasi baru.",
        personality := "Karakter eksploratif dan adaptif, senang mencoba hal berbeda.",
        major := .RPL,
        karir :=
          [ createPoint .strength "Respons cepat"
              "Kamu sigap mengatasi perubahan, cocok di bidang teknologi atau event.",
            createPoint .opportunity "Struktur belajar"
              "Susun kerangka belajar agar rasa penasaran tetap terarah." ],
        masaDepan :=
          [ createPoint .opportunity "Inovasi berkelanjutan"
              "Bidang startup atau riset terapan memberi ruang eksplorasi tanpa batas.",
            createPoint .warning "Hindari loncat-loncat"
              "Tentukan satu fokus utama tiap semester agar hasil terasa nyata." ],
        alasan := some
          [ createPoint .strength "Eksperimen terencana"
              "RPL memungkinkanmu menguji ide inovatif melalui prototipe digital.",
            createPoint .opportunity "Jalur portofolio"
              "Setiap aplikasi kecil bisa dijadikan studi kasus untuk menonjolkan rasa ingin tahu." ],
        langkah := some "Ambil satu proyek ekstrakurikuler dan jadikan studi kasus portofolio.",
        kebiasaan := some
          [ "Gunakan papan ide untuk menampung inspirasi sebelum dieksekusi.",
            "Review pembelajaran tiap Jumat untuk memilih ide teratas minggu berikutnya." ],
        alternatifNotes := some
          [ (.DKV, "Jika imajinasi visualmu menguat, DKV memberi ruang eksplorasi konsep unik."),
            (.TKJ, "TKJ cocok bila kamu ingin mendalami perangkat yang mendukung ide-ide besar.") ],
        confidenceModifier := none }),
    ("disgust",
      { energyTone := "Ekspresi menunjukkan standar tinggi dan keinginan menjaga kualitas.",
        personality := "Karakter perfeksionis, teliti terhadap detail dan lingkungan.",
        major := .TKJ,
        karir :=
          [ createPoint .strength "Kontrol kualitas"
              "Kepekaanmu terhadap detail cocok di bidang kuliner, kecantikan, atau produksi.",
            createPoint .opportunity "Kelola ekspektasi"
              "Belajar membagi standar: mana yang wajib tinggi dan mana yang bisa fleksibel." ],
        masaDepan :=
          [ createPoint .opportunity "Spesialis kualitas"
              "Pertimbangkan profesi QC, UX, atau desain interior yang menuntut cita rasa.",
            createPoint .warning "Hindari overkritik"
              "Gunakan sudut pandang apresiasi sebelum memberi evaluasi pada orang lain." ],
        alasan := some
          [ createPoint .strength "Kerapian sistem"
              "TKJ membiasakan standar check list dan dokumentasi sehingga perfeksimu tersalurkan.",
            createPoint .opportunity "Praktik bertahap"
              "Setiap proyek jaringan melatihmu menilai kualitas konfigurasi secara rinci." ],
        langkah := some "Buat checklist mutu pribadi sebelum memulai dan selesai mengerjakan proyek.",
        kebiasaan := some
          [ "Latihan sensory check selama 10 menit tiap hari.",
            "Berikan apresiasi diri atas progres kecil untuk menjaga motivasi." ],
        alternatifNotes := some
          [ (.RPL, "Jika ingin mengontrol kualitas software, RPL memberi ruang testing dan QA."),
            (.DKV, "Ketekunan detailmu juga bermanfaat menciptakan karya visual yang presisi di DKV.") ],
        confidenceModifier := none }),
    ("fear",
      { energyTone := "Ekspresi berhati-hati menunjukkan kebutuhan akan rasa aman sebelum melangkah.",
        personality := "Karakter analitis namun membutuhkan dorongan kepercayaan diri.",
        major := .TKJ,
        karir :=
          [ createPoint .strength "Detil dan teliti"
              "Kehati-hatianmu cocok di bidang riset, akuntansi, atau kontrol kualitas.",
            createPoint .opportunity "Bangun keberanian"
              "Mulai ambil proyek kecil bertahap untuk melatih percaya diri." ],
        masaDepan :=
          [ createPoint .opportunity "Perencanaan matang"
              "Profesi analis data atau perencana keuangan selaras dengan gaya berpikir sistematismu.",
            createPoint .warning "Atasi overthinking"
              "Gunakan teknik 5-4-3-2-1 atau journaling untuk meredam kekhawatiran." ],
        alasan := some
          [ createPoint .strength "Sistem yang aman"
              "TKJ mengajarkan cara menjaga jaringan tetap stabil sehingga selaras dengan kebutuhanmu akan rasa aman.",
            createPoint .opportunity "Proyek bertahap"
              "Pembelajaran praktikum memungkinkanmu menaikkan percaya diri setahap demi setahap." ],
        langkah := some "Susun rencana mingguan berisi tiga prioritas utama agar fokus mudah dijaga.",
        kebiasaan := some
          [ "Gunakan daftar afirmasi positif setiap pagi.",
            "Cek-in emosi di tengah hari dengan skala 1-5 lalu sesuaikan aktivitas." ],
        alternatifNotes := some
          [ (.RPL, "Jika ingin belajar membangun solusi yang membantu orang banyak, RPL memberimu pijakan aman."),
            (.DKV, "Menyalurkan rasa hati-hati lewat karya visual di DKV bisa menjadi terapi kreatif.") ],
        confidenceModifier := none }),
    ("contempt",
      { energyTone := "Ekspresi kritis menandakan intuisi tajam dalam menilai kondisi.",
        personality := "Karakter analitis dan tegas, cocok menjadi penasehat atau strategi.",
        major := .RPL,
        karir :=
          [ createPoint .strength "Analisis tajam"
              "Kemampuan menilai cepat membantu di bidang hukum, debat, atau riset kebijakan.",
            createPoint .warning "Bangun empati komunikatif"
              "Sertakan langkah solutif saat menyampaikan kritik agar penerimaan lebih baik." ],
        masaDepan :=
          [ createPoint .opportunity "Peran strategi"
              "Pertimbangkan profesi konsultan, analis bisnis, atau content strategist.",
            createPoint .warning "Jaga fleksibilitas"
              "Latih melihat sisi positif agar tidak terjebak pada penilaian yang terlalu keras." ],
        alasan := some
          [ createPoint .strength "Logika tajam"
              "RPL memfasilitasi pola pikir kritis lewat debugging dan analisis sistem.",
            createPoint .opportunity "Solusi aplikatif"
              "Setiap kritik bisa diterjemahkan menjadi fitur baru pada aplikasi yang kamu bangun." ],
        langkah := some "Setiap memberi evaluasi, sertakan minimal dua apresiasi dan satu alternatif solusi.",
        kebiasaan := some
          [ "Latihan menulis opini dengan format sandwich feedback.",
            "Ikuti konten atau buku tentang empati dan komunikasi asertif." ],
        alternatifNotes := some
          [ (.DKV, "Jika ingin mengasah kritik visual, DKV memberimu ruang menilai estetika."),
            (.TKJ, "TKJ cocok bila kamu ingin memastikan standar teknis dan keamanan tertata rapi.") ],
        confidenceModifier := none }) ]

/-- `AiStructuredResult.expressionSummary` from the source. -/
structure ExprSummaryIn where
  headline : Option String
  energyTone : Option String
  personalityHighlight : Option String
  confidenceModifier : Option JRat
  deriving DecidableEq, Repr

/-- `AiStructuredResult.manifesting` from the source. -/
structure ManifestingIn where
  pekerjaanKarir : Option (List MPoint)
  masaDepan : Option (List MPoint)
  deriving DecidableEq, Repr

/-- `AiStructuredResult.rekomendasiJurusan.utama` from the source. -/
structure UtamaIn where
  kode : Option String
  nama : Option String
  alasan : Option (List MPoint)
  langkahFokus : Option String
  kebiasaanPendukung : Option (List String)
  deriving DecidableEq, Repr

/-- One entry of `AiStructuredResult.rekomendasiJurusan.alternatif`. -/
structure AltIn where
  kode : Option String
  nama : Option String
  catatan : Option String
  deriving DecidableEq, Repr

/-- `AiStructuredResult.rekomendasiJurusan` from the source. -/
structure RekomendasiIn where
  utama : Option UtamaIn
  alternatif : Option (List AltIn)
  deriving DecidableEq, Repr

/-- `AiStructuredResult` from the source: the structured shape the
narrative generator is asked to produce, every field optional. -/
structure AiStructuredResult where
  expressionSummary : Option ExprSummaryIn
  manifesting : Option ManifestingIn
  rekomendasiJurusan : Option RekomendasiIn
  deriving DecidableEq, Repr

/-- `Map.set` on an association list: replace in place, else append
(JavaScript `Map` iteration follows insertion order). -/
def alistSet : List (MajorCode × String) → MajorCode → String → List (MajorCode × String)
  | [], k, v => [(k, v)]
  | (k0, v0) :: rest, k, v =>
      if k0 = k then (k, v) :: rest else (k0, v0) :: alistSet rest k v

/-- What `FALLBACK_TEMPLATES[label] ?? FALLBACK_TEMPLATES.default`
evaluates to: an own row, or — for a label naming an inherited
`Object.prototype` member — the truthy inherited value, on which every
template-field read then yields `undefined`. -/
inductive TemplateHit where
  | row (t : FallbackTemplate)
  | inherited
  deriving DecidableEq, Repr

/-- The template-selection expression of `buildFallbackAnalysis`: an own
key picks its row, an unknown key falls through `??` to the `default`
row, and an `Object.prototype` member name yields the truthy inherited
member so `??` does not fall through. -/
def resolveFallbackTemplate (label : String) : TemplateHit :=
  match FALLBACK_TEMPLATES.lookup label with
  | some t => .row t
  | none =>
      if label ∈ OBJECT_PROTO_KEYS then .inherited
      else .row defaultFallbackTemplate

/-- `buildFallbackAnalysis` from the source: deterministic template
selection keyed by the lowercased expression label, alternative notes
first taken from the template (normalizing each key, skipping empty
notes), then padded with `DEFAULT_MAJOR_NOTES` for every non-primary
track the template left unannotated.  When the label hits an inherited
`Object.prototype` member instead of a table row, every field read on
the "template" gives `undefined` and the explicit per-field defaults
take over: `template.major ?? "RPL"` makes the primary RPL, langkah /
kebiasaan / alasan take the RPL defaults, the alternatives pad to DKV
and TKJ, and energyTone / personality / karir / masaDepan stay absent. -/
def buildFallbackAnalysis (expression : ExpressionInsight) : AiStructuredResult :=
  match resolveFallbackTemplate (strToLower expression.label) with
  | .inherited =>
      { expressionSummary := some
          { headline := some expression.narrative,
            energyTone := none,
            personalityHighlight := none,
            confidenceModifier := some (pct (-10)) },
        manifesting := some
          { pekerjaanKarir := none,
            masaDepan := none },
        rekomendasiJurusan := some
          { utama := some
              { kode := some (codeStr .RPL),
                nama := some (MAJOR_LABELS .RPL),
                alasan := some (DEFAULT_MAJOR_POINTS .RPL),
                langkahFokus := some (DEFAULT_MAJOR_FOCUS .RPL).langkah,
                kebiasaanPendukung := some (DEFAULT_MAJOR_FOCUS .RPL).kebiasaan },
            alternatif := some
              [ { kode := some (codeStr .DKV), nama := some (MAJOR_LABELS .DKV),
                  catatan := some (DEFAULT_MAJOR_NOTES .DKV) },
                { kode := some (codeStr .TKJ), nama := some (MAJOR_LABELS .TKJ),
                  catatan := some (DEFAULT_MAJOR_NOTES .TKJ) } ] } }
  | .row template =>
  let major := template.major
  let templateNotes : List (MajorCode × String) :=
    match template.alternatifNotes with
    | some entries =>
        entries.foldl
          (fun acc cn =>
            let normalized := normalizeMajorCodeStr (some (codeStr cn.1))
            if cn.2 ≠ "" then alistSet acc normalized cn.2 else acc)
          []
    | none => []
  let notes : List (MajorCode × String) :=
    MAJOR_CODES.foldl
      (fun acc code =>
        if code = major then acc
        else if (acc.lookup code).isSome then acc
        else alistSet acc code (DEFAULT_MAJOR_NOTES code))
      templateNotes
  let langkah :=
    match template.langkah with
    | some s => strTrim s
    | none => (DEFAULT_MAJOR_FOCUS major).langkah
  let kebiasaan :=
    match template.kebiasaan with
    | some l =>
        if 0 < l.length then (l.map strTrim).filter (fun s => !s.isEmpty)
        else (DEFAULT_MAJOR_FOCUS major).kebiasaan
    | none => (DEFAULT_MAJOR_FOCUS major).kebiasaan
  let alasan :=
    match template.alasan with
    | some l => if 0 < l.length then l else DEFAULT_MAJOR_POINTS major
    | none => DEFAULT_MAJOR_POINTS major
  let alternatif : List AltIn :=
    notes.map (fun cn =>
      { kode := some (codeStr cn.1), nama := some (MAJOR_LABELS cn.1), catatan := some cn.2 })
  { expressionSummary := some
      { headline := some expression.narrative,
        energyTone := some template.energyTone,
        personalityHighlight := some template.personality,
        confidenceModifier := some (template.confidenceModifier.getD (pct (-10))) },
    manifesting := some
      { pekerjaanKarir := some template.karir,
        masaDepan := some template.masaDepan },
    rekomendasiJurusan := some
      { utama := some
          { kode := some (codeStr major),
            nama := some (MAJOR_LABELS major),
            alasan := some alasan,
            langkahFokus := some langkah,
            kebiasaanPendukung := some kebiasaan },
        alternatif := some alternatif } }

/-- Encoding of an optional record field: absent fields are simply not
present on the object (a read then gives `undefined`). -/
def optField (k : String) (v : Option JsValue) : List (String × JsValue) :=
  match v with
  | some x => [(k, x)]
  | none => []

/-- A typed `ManifestingPoint` as the JavaScript object it is at runtime. -/
def encodeMPoint (p : MPoint) : JsValue :=
  .obj (optField "title" (p.title.map .str) ++
        optField "description" (p.description.map .str) ++
        optField "indicator" (p.indicator.map (fun i => .str (indicatorStr i))))

/-- A typed point list as the JavaScript array it is at runtime. -/
def encodeMPointList (ps : List MPoint) : JsValue :=
  .arr (ps.map encodeMPoint)

/-- A string list as the JavaScript array it is at runtime. -/
def encodeStrList (l : List String) : JsValue :=
  .arr (l.map .str)

/-- `expressionSummary` as a runtime object. -/
def encodeExprSummary (e : ExprSummaryIn) : JsValue :=
  .obj (optField "headline" (e.headline.map .str) ++
        optField "energyTone" (e.energyTone.map .str) ++
        optField "personalityHighlight" (e.personalityHighlight.map .str) ++
        optField "confidenceModifier" (e.confidenceModifier.map .num))

/-- `manifesting` as a runtime object. -/
def encodeManifesting (m : ManifestingIn) : JsValue :=
  .obj (optField "pekerjaanKarir" (m.pekerjaanKarir.map encodeMPointList) ++
        optField "masaDepan" (m.masaDepan.map encodeMPointList))

/-- `rekomendasiJurusan.utama` as a runtime object. -/
def encodeUtama (u : UtamaIn) : JsValue :=
  .obj (optField "kode" (u.kode.map .str) ++
        optField "nama" (u.nama.map .str) ++
        optField "alasan" (u.alasan.map encodeMPointList) ++
        optField "langkahFokus" (u.langkahFokus.map .str) ++
        optField "kebiasaanPendukung" (u.kebiasaanPendukung.map encodeStrList))

/-- One `alternatif` entry as a runtime object. -/
def encodeAltIn (a : AltIn) : JsValue :=
  .obj (optField "kode" (a.kode.map .str) ++
        optField "nama" (a.nama.map .str) ++
        optField "catatan" (a.catatan.map .str))

/-- `rekomendasiJurusan` as a runtime object. -/
def encodeRekomendasi (r : RekomendasiIn) : JsValue :=
  .obj (optField "utama" (r.utama.map encodeUtama) ++
        optField "alternatif" (r.alternatif.map (fun l => .arr (l.map encodeAltIn))))

/-- A typed `AiStructuredResult` as the JavaScript value it is at runtime
(this is what `buildFallbackAnalysis` hands to the normalization step). -/
def encodeAi (r : AiStructuredResult) : JsValue :=
  .obj (optField "expressionSummary" (r.expressionSummary.map encodeExprSummary) ++
        optField "manifesting" (r.manifesting.map encodeManifesting) ++
        optField "rekomendasiJurusan" (r.rekomendasiJurusan.map encodeRekomendasi))

/-- `meta.source` of the response. -/
inductive MetaSource where
  | ai
  | fallback
  deriving DecidableEq, Repr

/-- A normalized manifesting point of the final payload.  The code never
validates `indicator`, so the raw value (defaulted to `"opportunity"`)
flows through. -/
structure OutPoint where
  title : String
  description : String
  indicator : JsValue

/-- A normalized alternative-track entry of the final payload. -/
structure AltOut where
  kode : MajorCode
  nama : String
  catatan : String
  deriving DecidableEq, Repr

/-- The normalized `rekomendasiJurusan.utama` block. -/
structure UtamaOut where
  kode : MajorCode
  nama : String
  alasan : List OutPoint
  langkahFokus : String
  kebiasaanPendukung : List String

/-- The normalized `expression` block.  `headline`, `energyTone` and
`personalityHighlight` keep whatever runtime value the generator
supplied (defaulted when nullish), because the code does not coerce
them. -/
structure ExpressionOut where
  headline : JsValue
  energyTone : JsValue
  personalityHighlight : JsValue
  confidence : JNum
  baseLabel : String
  baseConfidence : JNum

/-- The `manifesting` block of the final payload. -/
structure ManifestingOut where
  pekerjaanKarir : List OutPoint
  masaDepan : List OutPoint

/-- The `rekomendasiJurusan` block of the final payload. -/
structure RekomendasiOut where
  utama : UtamaOut
  alternatif : List AltOut

/-- The `meta` block of the final payload: `cached` is absent (`none`)
when the payload is built and only injected on a cache replay. -/
structure MetaOut where
  source : MetaSource
  cached : Option Bool
  deriving DecidableEq, Repr

/-- `AnalysisPayload` from the source. -/
structure AnalysisPayload where
  expression : ExpressionOut
  age : AgeInsight
  manifesting : ManifestingOut
  rekomendasiJurusan : RekomendasiOut
  meta : MetaOut

/-- `Array.prototype.map` with a possibly-throwing callback: the first
thrown exception aborts the whole map. -/
def exceptMapList {α β : Type} (f : α → Except String β) :
    List α → Except String (List β)
  | [] => .ok []
  | a :: as => do
      let b ← f a
      let bs ← exceptMapList f as
      pure (b :: bs)

/-- The filter of `normalizePoints`:
`Boolean(item?.title) && Boolean(item?.description)`. -/
def pointFilter (item : JsValue) : Bool :=
  (jsGetOpt item "title").truthy && (jsGetOpt item "description").truthy

/-- The map of `normalizePoints`.  The filter already guarantees the
item is non-nullish with truthy `title`/`description`, so the plain
property reads cannot themselves throw, but `.trim()` throws whenever a
truthy field is not a string. -/
def normalizeOnePoint (item : JsValue) : Except String OutPoint := do
  let t ← jsTrimE (jsGet item "title")
  let d ← jsTrimE (jsGet item "description")
  pure { title := t, description := d,
         indicator := jsOr (jsGet item "indicator") (.str "opportunity") }

/-- `normalizePoints` from the POST handler: nullish input defaults to
`[]`; any other non-array receiver makes `.filter` throw. -/
def normalizePoints (items : JsValue) : Except String (List OutPoint) :=
  match jsOr items (.arr []) with
  | .arr xs => exceptMapList normalizeOnePoint (xs.filter pointFilter)
  | _ => .error "TypeError: filter is not a function"

/-- One `sanitizeStringArray` entry: `entry?.trim()` gives `undefined`
for nullish entries and throws for non-string non-nullish entries. -/
def sanitizeEntry (e : JsValue) : Except String JsValue :=
  if e.nullish then pure JsValue.undef
  else do
    let t ← jsTrimE e
    pure (JsValue.str t)

/-- `sanitizeStringArray` from the POST handler: map `entry?.trim()` over
the entries, then `filter(Boolean)` keeps the non-empty strings. -/
def sanitizeStringArray (items : JsValue) : Except String (List String) :=
  match jsOr items (.arr []) with
  | .arr xs => do
      let mapped ← exceptMapList sanitizeEntry xs
      pure (mapped.filterMap (fun v =>
        match v with
        | .str s => if s.isEmpty then none else some s
        | _ => none))
  | _ => .error "TypeError: map is not a function"

/-- The per-entry map over `rekomendasiJurusan?.alternatif ?? []`:
entries without a truthy trimmed note are dropped (`null`), the rest are
normalized. -/
def mapAlternatifItem (item : JsValue) : Except String (Option AltOut) := do
  let c := jsGetOpt item "catatan"
  let catatan ← if c.nullish then pure none else Except.map some (jsTrimE c)
  match catatan with
  | none => pure none
  | some ct =>
      if ct = "" then pure none
      else do
        let code ← normalizeMajorCodeE (jsGetOpt item "kode")
        let nama ← resolveMajorNameE (jsGetOpt item "kode") (jsGetOpt item "nama")
        pure (some { kode := code, nama := nama, catatan := ct })

/-- The first dedup loop of the handler: keep an AI-supplied alternative
only when its code is unseen, tracking the `seen` set. -/
def dedupeLoop : List AltOut → List MajorCode → List AltOut
  | [], _ => []
  | a :: as, seen =>
      if a.kode ∈ seen then dedupeLoop as seen
      else a :: dedupeLoop as (a.kode :: seen)

/-- The `seen` set after the dedup loop. -/
def seenAfter : List AltOut → List MajorCode → List MajorCode
  | [], seen => seen
  | a :: as, seen =>
      if a.kode ∈ seen then seenAfter as seen
      else seenAfter as (a.kode :: seen)

/-- The second loop of the handler: pad with a static default entry for
every enumeration code not yet seen. -/
def padLoop : List MajorCode → List MajorCode → List AltOut
  | [], _ => []
  | c :: cs, seen =>
      if c ∈ seen then padLoop cs seen
      else { kode := c, nama := MAJOR_LABELS c, catatan := DEFAULT_MAJOR_NOTES c } ::
        padLoop cs (c :: seen)

/-- Both alternative-track loops of the handler, seeded with the primary
code. -/
def buildAlternatif (prim : MajorCode) (ais : List AltOut) : List AltOut :=
  dedupeLoop ais [prim] ++ padLoop MAJOR_CODES (seenAfter ais [prim])

/-- The response-normalization step of the POST handler (source lines
between the `aiResult` fallback substitution and the `basePayload`
literal).  `aiResult` is the raw runtime value the narrative generator
parsed to (or the fallback template output); property reads and method
calls throw exactly where the JavaScript would, and a thrown `TypeError`
surfaces as `Except.error` (the handler's outer `catch` then answers
500).  The `normalizePoints(DEFAULT_MAJOR_POINTS[...])` call receives the
typed constant as the runtime value it is, i.e. its encoding. -/
def normalizeAnalysis (aiResult : JsValue) (expression : ExpressionInsight)
    (ageInsight : AgeInsight) (metaSource : MetaSource) :
    Except String AnalysisPayload := do
  let m1 ← jsGetE aiResult "manifesting"
  let manifestingKarir ← normalizePoints (jsGetOpt m1 "pekerjaanKarir")
  let m2 ← jsGetE aiResult "manifesting"
  let manifestingMasaDepan ← normalizePoints (jsGetOpt m2 "masaDepan")
  let rj1 ← jsGetE aiResult "rekomendasiJurusan"
  let jurusanUtamaRaw := jsOr (jsGetOpt rj1 "utama") (.obj [])
  let utamaKode ← normalizeMajorCodeE (jsGet jurusanUtamaRaw "kode")
  let utamaNama ← resolveMajorNameE (jsGet jurusanUtamaRaw "kode") (jsGet jurusanUtamaRaw "nama")
  let alasanRaw ← normalizePoints (jsGet jurusanUtamaRaw "alasan")
  let alasanJurusan ←
    if alasanRaw.isEmpty then
      normalizePoints (encodeMPointList (DEFAULT_MAJOR_POINTS utamaKode))
    else pure alasanRaw
  let langkahFokus ←
    if (jsGet jurusanUtamaRaw "langkahFokus").nullish then
      pure (DEFAULT_MAJOR_FOCUS utamaKode).langkah
    else jsTrimE (jsGet jurusanUtamaRaw "langkahFokus")
  let kebs ← sanitizeStringArray (jsGet jurusanUtamaRaw "kebiasaanPendukung")
  let kebiasaanPendukung :=
    if kebs.isEmpty then (DEFAULT_MAJOR_FOCUS utamaKode).kebiasaan else kebs
  let rj2 ← jsGetE aiResult "rekomendasiJurusan"
  let alternatifDariAi ←
    match jsOr (jsGetOpt rj2 "alternatif") (.arr []) with
    | .arr xs => do
        let mapped ← exceptMapList mapAlternatifItem xs
        pure (mapped.filterMap id)
    | _ => Except.error "TypeError: map is not a function"
  let alternatif := buildAlternatif utamaKode alternatifDariAi
  let es1 ← jsGetE aiResult "expressionSummary"
  let confidenceModifier := jsOr (jsGetOpt es1 "confidenceModifier") (.num (qInt 0))
  let expressionConfidence :=
    match confidenceModifier with
    | .num m => jclamp01 (jadd expression.confidence (some m))
    | _ => expression.confidence
  let es2 ← jsGetE aiResult "expressionSummary"
  let es3 ← jsGetE aiResult "expressionSummary"
  let es4 ← jsGetE aiResult "expressionSummary"
  pure
    { expression :=
        { headline := jsOr (jsGetOpt es2 "headline") (.str expression.narrative),
          energyTone := jsOr (jsGetOpt es3 "energyTone")
            (.str "Energi netral, tetap jaga kestabilan emosi."),
          personalityHighlight := jsOr (jsGetOpt es4 "personalityHighlight")
            (.str "Karakter terlihat seimbang dan responsif."),
          confidence := expressionConfidence,
          baseLabel := expression.label,
          baseConfidence := expression.confidence },
      age :=
        { headline := ageInsight.headline,
          narrative := ageInsight.narrative,
          confidence := ageInsight.confidence,
          label := ageInsight.label,
          estimated := ageInsight.estimated,
          range := ageInsight.range },
      manifesting :=
        { pekerjaanKarir := manifestingKarir, masaDepan := manifestingMasaDepan },
      rekomendasiJurusan :=
        { utama :=
            { kode := utamaKode, nama := utamaNama, alasan := alasanJurusan,
              langkahFokus := langkahFokus, kebiasaanPendukung := kebiasaanPendukung },
          alternatif := alternatif },
      meta := { source := metaSource, cached := none } }

/-- Index access `v?.[0]`: nullish bases give `undefined`, arrays yield
their first element (or `undefined` when empty), objects their own
`"0"` property (no `Object.prototype` member is named `"0"`), strings
their first character as a one-character string; numbers and booleans
give `undefined`. -/
def jsIndex0Opt (v : JsValue) : JsValue :=
  if v.nullish then .undef
  else
    match v with
    | .arr xs => xs.headD .undef
    | .obj fields => (fields.lookup "0").getD .undef
    | .str s =>
        match s.toList with
        | [] => .undef
        | c :: _ => .str (String.mk [c])
    | _ => (.undef)

/-- What reading/parsing the non-2xx response body can observe:
`response.text()` may itself reject, or yield text that `JSON.parse`
rejects, or yield text parsing to a JSON value. -/
inductive GenTextOutcome where
  | readFail
  | unparsed (text : String)
  | parsed (v : JsValue) (text : String)

/-- Observable behaviours of the narrative-generator endpoint. -/
inductive GenUpstream where
  | netFail
  | notOk (status : Nat) (detail : GenTextOutcome)
  | okBody (body : Option JsValue)

/-- The error message built for a non-2xx generator response:
`parsed?.error?.message ?? parsed?.message ?? base`, else the base
message with a 180-character preview of unparseable non-empty text; a
failing `text()` read keeps the base message. -/
def togetherErrorMessage (status : Nat) (detail : GenTextOutcome) : String :=
  let base := "Together API error (" ++ toString status ++ ")"
  match detail with
  | .readFail => base
  | .unparsed text => if text ≠ "" then base ++ ": " ++ text.take 180 else base
  | .parsed v _ =>
      let m1 := jsGetOpt (jsGetOpt v "error") "message"
      if !m1.nullish then jsToString m1
      else
        let m2 := jsGetOpt v "message"
        if !m2.nullish then jsToString m2 else base

/-- `generateFaceReading` from the source, abstracted over the engine's
`JSON.parse` (`jsonParse cleaned = none` models a `SyntaxError`).  The
prompt construction (persona text, age stage line, track-affinity hint)
only shapes the outbound request, which the `GenUpstream` oracle already
abstracts, so it plays no role here.  On success the content string is
stripped of Markdown fences and parsed; every failure path throws
(`Except.error`) — the adapter itself never falls back. -/
def generateFaceReading (jsonParse : String → Option JsValue)
    (upstream : GenUpstream) : Except String JsValue :=
  match upstream with
  | .netFail => .error "TypeError: fetch failed"
  | .notOk status detail => .error (togetherErrorMessage status detail)
  | .okBody none => .error "SyntaxError: response body is not valid JSON"
  | .okBody (some payload) => do
      let contentV :=
        jsGetOpt (jsGetOpt (jsIndex0Opt (jsGetOpt payload "choices")) "message") "content"
      let rawText ←
        if contentV.nullish then pure ""
        else jsTrimE contentV
      if rawText = "" then .error "Model tidak mengembalikan hasil."
      else
        let cleaned := strTrim ((rawText.replace "```json" "").replace "```" "")
        match jsonParse cleaned with
        | some parsed => .ok parsed
        | none => .error "Gagal memahami hasil AI. Coba ulangi analisis."

/-- `RATE_LIMIT_WINDOW_MS` from the source. -/
def RATE_LIMIT_WINDOW_MS : Int := 60000

/-- `RATE_LIMIT_MAX` from the source. -/
def RATE_LIMIT_MAX : Nat := 6

/-- `CACHE_TTL_MS` from the source (10 minutes). -/
def CACHE_TTL_MS : Int := 600000

/-- `Map.set` on a string-keyed association list: replace in place, else
append. -/
def mapSet {α : Type} : List (String × α) → String → α → List (String × α)
  | [], k, v => [(k, v)]
  | (k0, v0) :: rest, k, v =>
      if k0 = k then (k, v) :: rest else (k0, v0) :: mapSet rest k v

/-- One `analysisCache` entry. -/
structure CacheEntry where
  timestamp : Int
  data : AnalysisPayload

/-- The two process-wide mutable maps of the module. -/
structure ServerState where
  rateBuckets : List (String × List Int)
  analysisCache : List (String × CacheEntry)

/-- `checkRateLimit` from the source: prune timestamps at or before
`now - window`; at or above the cap, persist only the pruned list and
reject; otherwise append `now` and admit.  `true` means rejected. -/
def checkRateLimit (key : String) (now : Int) (st : ServerState) :
    Bool × ServerState :=
  let windowStart := now - RATE_LIMIT_WINDOW_MS
  let timestamps := (st.rateBuckets.lookup key).getD []
  let filtered := timestamps.filter (fun ts => windowStart < ts)
  if RATE_LIMIT_MAX ≤ filtered.length then
    (true, { st with rateBuckets := mapSet st.rateBuckets key filtered })
  else
    (false, { st with rateBuckets := mapSet st.rateBuckets key (filtered ++ [now]) })

/-- The SHA-256 hex digest used as the cache key.  The handler relies
only on the digest being a deterministic function of the base64 payload
(plus collision resistance for soundness of content addressing); the
identity map is the canonical deterministic injective model. -/
def sha256Hex (s : String) : String := s

/-- String test (`typeof image === "string"`). -/
def JsValue.isStr : JsValue → Bool
  | .str _ => true
  | _ => false

/-- The four response classes of the POST handler; `success` carries the
payload together with the fresh `generatedAt` timestamp. -/
inductive PostResult where
  | badRequest (message : String)
  | tooMany (message : String)
  | serverError (message : String)
  | success (payload : AnalysisPayload) (generatedAt : Int)

/-- The oracle bundle for one request's three outbound calls. -/
structure Upstreams where
  expr : ExprUpstream
  age : AgeUpstream
  gen : GenUpstream

/-- The cache-replay copy: spread the stored payload and inject
`cached: true` into the copied metadata. -/
def markCached (p : AnalysisPayload) : AnalysisPayload :=
  { p with meta := { p.meta with cached := some true } }

/-- The outer `catch` of the handler answers 500 with the thrown error's
message when it has one, else the generic message. -/
def catchMessage (m : String) : String :=
  if m.isEmpty then
    "Terjadi kesalahan saat menjalankan face reading. Coba lagi beberapa saat."
  else m

/-- The full-analysis pipeline of the POST handler (after the rate-limit
and cache gates): expression classification, then age classification —
both awaited outside any local try, so their throws propagate to the
outer catch — then narrative generation with the local fallback
substitution (only the generator call sits in a try), then
normalization; on success the fresh payload is cached under the image
hash before responding. -/
def runPipeline (jsonParse : String → Option JsValue) (ups : Upstreams)
    (imageHash : String) (now : Int) (st : ServerState) :
    PostResult × ServerState :=
  match detectExpression ups.expr with
  | .error msg => (.serverError (catchMessage msg), st)
  | .ok expression =>
      match detectAge ups.age (some expression) with
      | .error msg => (.serverError (catchMessage msg), st)
      | .ok ageInsight =>
          let (aiResult, metaSource) :=
            match generateFaceReading jsonParse ups.gen with
            | .ok v => (v, MetaSource.ai)
            | .error _ => (encodeAi (buildFallbackAnalysis expression), MetaSource.fallback)
          match normalizeAnalysis aiResult expression ageInsight metaSource with
          | .error msg => (.serverError (catchMessage msg), st)
          | .ok basePayload =>
              (.success basePayload now,
               { st with analysisCache := mapSet st.analysisCache imageHash ⟨now, basePayload⟩ })

/-- `POST` from the source.  `hasTokens` models the presence of both
upstream credentials; `clientKey` is the key already derived from the
forwarded headers; `body = none` models a request body that fails
`req.json()` (the outer catch answers 500); destructuring a nullish body
throws likewise.  Then, in source order: the two 400 validations, the
rate-limit gate, the TTL-checked cache replay, and the full pipeline. -/
def postHandler (jsonParse : String → Option JsValue) (hasTokens : Bool)
    (clientKey : String) (body : Option JsValue) (now : Int) (ups : Upstreams)
    (st : ServerState) : PostResult × ServerState :=
  if !hasTokens then
    (.serverError "Konfigurasi API belum lengkap. Tambahkan NEXT_PUBLIC_HF_TOKEN dan TOGETHER_API_KEY pada environment.", st)
  else
    match body with
    | none => (.serverError (catchMessage "SyntaxError: request body is not valid JSON"), st)
    | some bodyV =>
        if bodyV.nullish then
          (.serverError (catchMessage "TypeError: cannot destructure property of nullish body"), st)
        else
          if !(jsGet bodyV "image").truthy || !(jsGet bodyV "image").isStr then
            (.badRequest "Gambar tidak ditemukan di permintaan.", st)
          else
            match splitOnChar ',' (jsToString (jsGet bodyV "image")) with
            | _ :: base64Data :: _ =>
                if base64Data = "" then
                  (.badRequest "Format gambar tidak valid.", st)
                else
                  match checkRateLimit clientKey now st with
                  | (true, st1) =>
                      (.tooMany "Terlalu banyak analisis dalam waktu singkat. Coba lagi dalam beberapa detik.", st1)
                  | (false, st1) =>
                      match st1.analysisCache.lookup (sha256Hex base64Data) with
                      | some entry =>
                          if now - entry.timestamp < CACHE_TTL_MS then
                            (.success (markCached entry.data) now, st1)
                          else
                            runPipeline jsonParse ups (sha256Hex base64Data) now st1
                      | none => runPipeline jsonParse ups (sha256Hex base64Data) now st1
            | _ => (.badRequest "Format gambar tidak valid.", st)

/-- Shared demo inputs used by witnesses and counterexamples. -/
def demoExpr : ExpressionInsight :=
  { narrative := "Ekspresi bahagia mendominasi, menunjukkan energi positif dan terbuka.",
    confidence := some (pct 90), label := "happiness" }

/-- Demo age insight companion to `demoExpr` (the `happiness` preset,
the value `buildFallbackAgeInsight (some demoExpr)` succeeds with). -/
def demoAge : AgeInsight :=
  agePresetInsight ((FALLBACK_AGE_PRESETS.lookup "happiness").getD defaultAgePreset)

/-- A `JSON.parse` oracle that rejects everything. -/
def noParse : String → Option JsValue := fun _ => none

/-- Demo oracle bundle: both classifiers answer non-2xx, the generator's
fetch rejects. -/
def demoUps : Upstreams := ⟨.notOk "boom", .notOk "boom", .netFail⟩

/-- The empty server state at process start. -/
def emptyState : ServerState := ⟨[], []⟩

/-- An optional string as the runtime value of the corresponding encoded
field. -/
def encodeOptStr : Option String → JsValue
  | some s => .str s
  | none => (.undef)

/-- Reading any key off an `ok` result of `jsGetE` on an encoded object:
encoded objects are never nullish. -/
theorem jsGetE_encodeAi (r : AiStructuredResult) (k : String) :
    jsGetE (encodeAi r) k = .ok (jsGet (encodeAi r) k) := rfl

theorem jsGet_encodeAi_expressionSummary (r : AiStructuredResult) :
    jsGet (encodeAi r) "expressionSummary" =
      (match r.expressionSummary with
       | some x => encodeExprSummary x
       | none => .undef) := by
  rcases r with ⟨es, mf, rj⟩
  cases es <;> cases mf <;> cases rj <;> rfl

theorem jsGet_encodeAi_manifesting (r : AiStructuredResult) :
    jsGet (encodeAi r) "manifesting" =
      (match r.manifesting with
       | some x => encodeManifesting x
       | none => .undef) := by
  rcases r with ⟨es, mf, rj⟩
  cases es <;> cases mf <;> cases rj <;> rfl

theorem jsGet_encodeAi_rekomendasi (r : AiStructuredResult) :
    jsGet (encodeAi r) "rekomendasiJurusan" =
      (match r.rekomendasiJurusan with
       | some x => encodeRekomendasi x
       | none => .undef) := by
  rcases r with ⟨es, mf, rj⟩
  cases es <;> cases mf <;> cases rj <;> rfl

theorem jsGet_encodeManifesting_karir (m : ManifestingIn) :
    jsGet (encodeManifesting m) "pekerjaanKarir" =
      (match m.pekerjaanKarir with
       | some x => encodeMPointList x
       | none => .undef) := by
  rcases m with ⟨pk, md⟩
  cases pk <;> cases md <;> rfl

theorem jsGet_encodeManifesting_masaDepan (m : ManifestingIn) :
    jsGet (encodeManifesting m) "masaDepan" =
      (match m.masaDepan with
       | some x => encodeMPointList x
       | none => .undef) := by
  rcases m with ⟨pk, md⟩
  cases pk <;> cases md <;> rfl

theorem jsGet_encodeRekomendasi_utama (r : RekomendasiIn) :
    jsGet (encodeRekomendasi r) "utama" =
      (match r.utama with
       | some x => encodeUtama x
       | none => .undef) := by
  rcases r with ⟨u, al⟩
  cases u <;> cases al <;> rfl

theorem jsGet_encodeRekomendasi_alternatif (r : RekomendasiIn) :
    jsGet (encodeRekomendasi r) "alternatif" =
      (match r.alternatif with
       | some x => JsValue.arr (x.map encodeAltIn)
       | none => .undef) := by
  rcases r with ⟨u, al⟩
  cases u <;> cases al <;> rfl

theorem jsGet_encodeUtama_kode (u : UtamaIn) :
    jsGet (encodeUtama u) "kode" = encodeOptStr u.kode := by
  rcases u with ⟨k, n, al, lf, kb⟩
  cases k <;> cases n <;> cases al <;> cases lf <;> cases kb <;> rfl

theorem jsGet_encodeUtama_nama (u : UtamaIn) :
    jsGet (encodeUtama u) "nama" = encodeOptStr u.nama := by
  rcases u with ⟨k, n, al, lf, kb⟩
  cases k <;> cases n <;> cases al <;> cases lf <;> cases kb <;> rfl

theorem jsGet_encodeUtama_alasan (u : UtamaIn) :
    jsGet (encodeUtama u) "alasan" =
      (match u.alasan with
       | some x => encodeMPointList x
       | none => .undef) := by
  rcases u with ⟨k, n, al, lf, kb⟩
  cases k <;> cases n <;> cases al <;> cases lf <;> cases kb <;> rfl

theorem jsGet_encodeUtama_langkahFokus (u : UtamaIn) :
    jsGet (encodeUtama u) "langkahFokus" = encodeOptStr u.langkahFokus := by
  rcases u with ⟨k, n, al, lf, kb⟩
  cases k <;> cases n <;> cases al <;> cases lf <;> cases kb <;> rfl

theorem jsGet_encodeUtama_kebiasaan (u : UtamaIn) :
    jsGet (encodeUtama u) "kebiasaanPendukung" =
      (match u.kebiasaanPendukung with
       | some x => encodeStrList x
       | none => .undef) := by
  rcases u with ⟨k, n, al, lf, kb⟩
  cases k <;> cases n <;> cases al <;> cases lf <;> cases kb <;> rfl

theorem jsGet_encodeExprSummary_headline (e : ExprSummaryIn) :
    jsGet (encodeExprSummary e) "headline" = encodeOptStr e.headline := by
  rcases e with ⟨h, et, ph, cm⟩
  cases h <;> cases et <;> cases ph <;> cases cm <;> rfl

theorem jsGet_encodeExprSummary_energyTone (e : ExprSummaryIn) :
    jsGet (encodeExprSummary e) "energyTone" = encodeOptStr e.energyTone := by
  rcases e with ⟨h, et, ph, cm⟩
  cases h <;> cases et <;> cases ph <;> cases cm <;> rfl

theorem jsGet_encodeExprSummary_personality (e : ExprSummaryIn) :
    jsGet (encodeExprSummary e) "personalityHighlight" =
      encodeOptStr e.personalityHighlight := by
  rcases e with ⟨h, et, ph, cm⟩
  cases h <;> cases et <;> cases ph <;> cases cm <;> rfl

theorem jsGet_encodeExprSummary_modifier (e : ExprSummaryIn) :
    jsGet (encodeExprSummary e) "confidenceModifier" =
      (match e.confidenceModifier with
       | some q => .num q
       | none => .undef) := by
  rcases e with ⟨h, et, ph, cm⟩
  cases h <;> cases et <;> cases ph <;> cases cm <;> rfl

theorem jsGet_encodeAltIn_kode (a : AltIn) :
    jsGet (encodeAltIn a) "kode" = encodeOptStr a.kode := by
  rcases a with ⟨k, n, c⟩
  cases k <;> cases n <;> cases c <;> rfl

theorem jsGet_encodeAltIn_nama (a : AltIn) :
    jsGet (encodeAltIn a) "nama" = encodeOptStr a.nama := by
  rcases a with ⟨k, n, c⟩
  cases k <;> cases n <;> cases c <;> rfl

theorem jsGet_encodeAltIn_catatan (a : AltIn) :
    jsGet (encodeAltIn a) "catatan" = encodeOptStr a.catatan := by
  rcases a with ⟨k, n, c⟩
  cases k <;> cases n <;> cases c <;> rfl

/-- Bind on a successful `Except` computes the continuation. -/
theorem okBind {α β : Type} (a : α) (f : α → Except String β) :
    (Except.ok a >>= f : Except String β) = f a := rfl

/-- Bind on `pure` computes the continuation. -/
theorem pureBind {α β : Type} (a : α) (f : α → Except String β) :
    ((pure a : Except String α) >>= f) = f a := rfl

/-- The truthiness filter on an encoded point only inspects the encoded
`title` and `description` fields. -/
theorem pointFilter_encodeMPoint (p : MPoint) :
    pointFilter (encodeMPoint p) =
      ((encodeOptStr p.title).truthy && (encodeOptStr p.description).truthy) := by
  rcases p with ⟨t, d, i⟩
  cases t <;> cases d <;> cases i <;> rfl

/-- A point that passed the truthiness filter has string `title` and
`description`, so its normalization cannot throw. -/
theorem normalizeOnePoint_encode_ok (p : MPoint)
    (hf : pointFilter (encodeMPoint p) = true) :
    ∃ pt, normalizeOnePoint (encodeMPoint p) = .ok pt := by
  rw [pointFilter_encodeMPoint] at hf
  rcases p with ⟨t, d, i⟩
  cases t with
  | none => exact Bool.noConfusion hf
  | some ts =>
      cases d with
      | none => simp [encodeOptStr, JsValue.truthy] at hf
      | some ds => cases i <;> exact ⟨_, rfl⟩

/-- Mapping the filtered encoding of a typed point list never throws. -/
theorem exceptMapList_points_ok (ps : List MPoint) :
    ∃ l, exceptMapList normalizeOnePoint ((ps.map encodeMPoint).filter pointFilter) =
      .ok l := by
  induction ps with
  | nil => exact ⟨[], rfl⟩
  | cons p ps ih =>
      obtain ⟨l, hl⟩ := ih
      rcases hf : pointFilter (encodeMPoint p) with _ | _
      · exact ⟨l, by simpa [List.filter_cons, hf] using hl⟩
      · obtain ⟨pt, hpt⟩ := normalizeOnePoint_encode_ok p hf
        exact ⟨pt :: l, by simp [List.filter_cons, hf, exceptMapList, hpt, hl, okBind]⟩

/-- `normalizePoints` never throws on a typed (possibly absent) list. -/
theorem normalizePoints_encoded (o : Option (List MPoint)) :
    ∃ l, normalizePoints
      (match o with | some ps => encodeMPointList ps | none => JsValue.undef) = .ok l := by
  cases o with
  | none => exact ⟨[], rfl⟩
  | some ps =>
      obtain ⟨l, hl⟩ := exceptMapList_points_ok ps
      exact ⟨l, by simpa [normalizePoints, encodeMPointList, jsOr, JsValue.nullish] using hl⟩

/-- `sanitizeStringArray` never throws on a typed (possibly absent)
string list. -/
theorem sanitizeStringArray_encoded (o : Option (List String)) :
    ∃ l, sanitizeStringArray
      (match o with | some xs => encodeStrList xs | none => JsValue.undef) = .ok l := by
  cases o with
  | none => exact ⟨[], rfl⟩
  | some xs =>
      have h : ∀ ys : List String,
          exceptMapList sanitizeEntry (ys.map JsValue.str) =
            .ok (ys.map (fun s => JsValue.str (strTrim s))) := by
        intro ys
        induction ys with
        | nil => rfl
        | cons s ss ih =>
            simp [exceptMapList, sanitizeEntry, JsValue.nullish, jsTrimE, okBind, ih]
      exact ⟨_, by
        rw [show sanitizeStringArray (encodeStrList xs) =
            (do
              let mapped ← exceptMapList sanitizeEntry (xs.map JsValue.str)
              pure (mapped.filterMap (fun v =>
                match v with
                | JsValue.str s => if s.isEmpty then none else some s
                | _ => none))) from rfl, h xs]
        rfl⟩

/-- `normalizeMajorCode` never throws on a typed (possibly absent)
string. -/
theorem normalizeMajorCodeE_encoded (k : Option String) :
    ∃ c, normalizeMajorCodeE (encodeOptStr k) = .ok c := by
  cases k <;> exact ⟨_, rfl⟩

/-- `resolveMajorName` never throws on typed (possibly absent) strings. -/
theorem resolveMajorNameE_encoded (k n : Option String) :
    ∃ s, resolveMajorNameE (encodeOptStr k) (encodeOptStr n) = .ok s := by
  cases k <;> cases n <;>
    simp [resolveMajorNameE, normalizeMajorCodeE, encodeOptStr,
      JsValue.nullish, JsValue.truthy, jsTrimE, okBind] <;>
    split_ifs <;> exact ⟨_, rfl⟩

/-- One AI alternative entry (typed) never makes the map throw. -/
theorem mapAlternatifItem_encoded (a : AltIn) :
    ∃ o, mapAlternatifItem (encodeAltIn a) = .ok o := by
  obtain ⟨k, n, c⟩ := a
  cases c with
  | none => cases k <;> cases n <;> exact ⟨none, rfl⟩
  | some cs =>
      obtain ⟨mc, hmc⟩ := normalizeMajorCodeE_encoded k
      obtain ⟨mn, hmn⟩ := resolveMajorNameE_encoded k n
      have hstep : mapAlternatifItem (encodeAltIn ⟨k, n, some cs⟩) =
          if strTrim cs = "" then pure none
          else
            normalizeMajorCodeE (encodeOptStr k) >>= fun code =>
              resolveMajorNameE (encodeOptStr k) (encodeOptStr n) >>= fun nama =>
                pure (some { kode := code, nama := nama, catatan := strTrim cs }) := by
        cases k <;> cases n <;> rfl
      rw [hstep]
      by_cases hcs : strTrim cs = ""
      · rw [if_pos hcs]; exact ⟨none, rfl⟩
      · rw [if_neg hcs, hmc, okBind, hmn, okBind]; exact ⟨_, rfl⟩

/-- The whole AI alternative list (typed) never makes the map throw. -/
theorem exceptMapList_alts_ok (xs : List AltIn) :
    ∃ l, exceptMapList mapAlternatifItem (xs.map encodeAltIn) = .ok l := by
  induction xs with
  | nil => exact ⟨[], rfl⟩
  | cons a as ih =>
      obtain ⟨l, hl⟩ := ih
      obtain ⟨o, ho⟩ := mapAlternatifItem_encoded a
      exact ⟨o :: l, by simp [exceptMapList, ho, hl, okBind]⟩

/-- The runtime value of `rekomendasiJurusan?.utama ?? {}`. -/
def utamaRawOf : Option UtamaIn → JsValue
  | some u => encodeUtama u
  | none => .obj []

theorem utamaRaw_eq (rj : Option RekomendasiIn) :
    jsOr (jsGetOpt
        (match rj with
         | some x => encodeRekomendasi x
         | none => JsValue.undef) "utama") (.obj []) =
      utamaRawOf (rj.bind (fun x => x.utama)) := by
  cases rj with
  | none => rfl
  | some x =>
      rcases x with ⟨ut, alt⟩
      cases ut <;> cases alt <;> rfl

theorem alternatifRaw_eq (rj : Option RekomendasiIn) :
    jsOr (jsGetOpt
        (match rj with
         | some x => encodeRekomendasi x
         | none => JsValue.undef) "alternatif") (.arr []) =
      .arr (((rj.bind (fun x => x.alternatif)).getD []).map encodeAltIn) := by
  cases rj with
  | none => rfl
  | some x =>
      rcases x with ⟨ut, alt⟩
      cases ut <;> cases alt <;> rfl

theorem karir_ok (mf : Option ManifestingIn) :
    ∃ l, normalizePoints (jsGetOpt
        (match mf with
         | some x => encodeManifesting x
         | none => JsValue.undef) "pekerjaanKarir") = .ok l := by
  cases mf with
  | none => exact ⟨[], rfl⟩
  | some m =>
      rw [show jsGetOpt (encodeManifesting m) "pekerjaanKarir" =
          jsGet (encodeManifesting m) "pekerjaanKarir" from rfl,
        jsGet_encodeManifesting_karir]
      exact normalizePoints_encoded m.pekerjaanKarir

theorem masaDepan_ok (mf : Option ManifestingIn) :
    ∃ l, normalizePoints (jsGetOpt
        (match mf with
         | some x => encodeManifesting x
         | none => JsValue.undef) "masaDepan") = .ok l := by
  cases mf with
  | none => exact ⟨[], rfl⟩
  | some m =>
      rw [show jsGetOpt (encodeManifesting m) "masaDepan" =
          jsGet (encodeManifesting m) "masaDepan" from rfl,
        jsGet_encodeManifesting_masaDepan]
      exact normalizePoints_encoded m.masaDepan

theorem utama_kode_ok (u? : Option UtamaIn) :
    ∃ c, normalizeMajorCodeE (jsGet (utamaRawOf u?) "kode") = .ok c := by
  cases u? with
  | none => exact ⟨.RPL, by rfl⟩
  | some u =>
      rw [show utamaRawOf (some u) = encodeUtama u from rfl, jsGet_encodeUtama_kode]
      exact normalizeMajorCodeE_encoded u.kode

theorem utama_nama_ok (u? : Option UtamaIn) :
    ∃ s, resolveMajorNameE (jsGet (utamaRawOf u?) "kode")
      (jsGet (utamaRawOf u?) "nama") = .ok s := by
  cases u? with
  | none => exact ⟨MAJOR_LABELS .RPL, by rfl⟩
  | some u =>
      rw [show utamaRawOf (some u) = encodeUtama u from rfl,
        jsGet_encodeUtama_kode, jsGet_encodeUtama_nama]
      exact resolveMajorNameE_encoded u.kode u.nama

theorem utama_alasan_ok (u? : Option UtamaIn) :
    ∃ l, normalizePoints (jsGet (utamaRawOf u?) "alasan") = .ok l := by
  cases u? with
  | none => exact ⟨[], rfl⟩
  | some u =>
      rw [show utamaRawOf (some u) = encodeUtama u from rfl, jsGet_encodeUtama_alasan]
      exact normalizePoints_encoded u.alasan

theorem alasan_branch_ok (b : Bool) (l : List OutPoint) (ps : List MPoint) :
    ∃ x, (if b then normalizePoints (encodeMPointList ps) else pure l) = .ok x := by
  cases b with
  | false => exact ⟨l, rfl⟩
  | true => simpa using normalizePoints_encoded (some ps)

theorem utama_langkah_ok (u? : Option UtamaIn) (d : String) :
    ∃ x, (if (jsGet (utamaRawOf u?) "langkahFokus").nullish then
        (pure d : Except String String)
      else jsTrimE (jsGet (utamaRawOf u?) "langkahFokus")) = .ok x := by
  cases u? with
  | none => exact ⟨d, rfl⟩
  | some u =>
      rw [show utamaRawOf (some u) = encodeUtama u from rfl, jsGet_encodeUtama_langkahFokus]
      cases h : u.langkahFokus with
      | none => exact ⟨d, rfl⟩
      | some s => exact ⟨strTrim s, rfl⟩

theorem utama_kebiasaan_ok (u? : Option UtamaIn) :
    ∃ l, sanitizeStringArray (jsGet (utamaRawOf u?) "kebiasaanPendukung") = .ok l := by
  cases u? with
  | none => exact ⟨[], rfl⟩
  | some u =>
      rw [show utamaRawOf (some u) = encodeUtama u from rfl, jsGet_encodeUtama_kebiasaan]
      exact sanitizeStringArray_encoded u.kebiasaanPendukung

set_option maxHeartbeats 2000000

/-- A placeholder payload (used only as the default of witness
extractors). -/
def emptyExpressionOut : ExpressionOut :=
  { headline := JsValue.undef
    energyTone := JsValue.undef
    personalityHighlight := JsValue.undef
    confidence := none
    baseLabel := ""
    baseConfidence := none }

/-- Placeholder recommendation block for `emptyPayload`. -/
def emptyUtamaOut : UtamaOut :=
  { kode := MajorCode.RPL
    nama := ""
    alasan := []
    langkahFokus := ""
    kebiasaanPendukung := [] }

/-- Placeholder payload for witness extractors. -/
def emptyPayload : AnalysisPayload :=
  { expression := emptyExpressionOut
    age := agePresetInsight defaultAgePreset
    manifesting := { pekerjaanKarir := [], masaDepan := [] }
    rekomendasiJurusan := { utama := emptyUtamaOut, alternatif := [] }
    meta := { source := MetaSource.ai, cached := none } }

/-- The payload of a successful response (placeholder otherwise). -/
def payloadOf : PostResult → AnalysisPayload
  | .success p _ => p
  | _ => emptyPayload

/-- The master totality lemma behind several claims: the normalization
step accepts every runtime value that conforms to the declared
`AiStructuredResult` shape — in particular every output of
`buildFallbackAnalysis` and every type-conforming generator output —
without throwing. -/
theorem normalizeAnalysis_encoded_ok (r : AiStructuredResult)
    (e : ExpressionInsight) (a : AgeInsight) (s : MetaSource) :
    ∃ p, normalizeAnalysis (encodeAi r) e a s = .ok p := by
  rcases r with ⟨es, mf, rj⟩
  obtain ⟨kl, hkl⟩ := karir_ok mf
  obtain ⟨ml, hml⟩ := masaDepan_ok mf
  obtain ⟨mc, hmc⟩ := utama_kode_ok (rj.bind (fun x => x.utama))
  obtain ⟨mn, hmn⟩ := utama_nama_ok (rj.bind (fun x => x.utama))
  obtain ⟨al, hal⟩ := utama_alasan_ok (rj.bind (fun x => x.utama))
  obtain ⟨dl, hdl⟩ := normalizePoints_encoded (some (DEFAULT_MAJOR_POINTS mc))
  have hdl2 : normalizePoints (encodeMPointList (DEFAULT_MAJOR_POINTS mc)) = .ok dl := hdl
  obtain ⟨kb, hkb⟩ := utama_kebiasaan_ok (rj.bind (fun x => x.utama))
  obtain ⟨alts, halts⟩ := exceptMapList_alts_ok ((rj.bind (fun x => x.alternatif)).getD [])
  have hlfld : jsGet (utamaRawOf (rj.bind (fun x => x.utama))) "langkahFokus" =
      encodeOptStr ((rj.bind (fun x => x.utama)).bind (fun u => u.langkahFokus)) := by
    cases rj with
    | none => rfl
    | some x =>
        rcases x with ⟨ut, alt⟩
        cases ut with
        | none => rfl
        | some u => exact jsGet_encodeUtama_langkahFokus u
  cases hae : al.isEmpty <;>
    cases hopt : ((rj.bind (fun x => x.utama)).bind (fun u => u.langkahFokus)) <;>
      exact ⟨_, by
        simp only [normalizeAnalysis, jsGetE_encodeAi, okBind, jsGet_encodeAi_manifesting,
          jsGet_encodeAi_rekomendasi, jsGet_encodeAi_expressionSummary, hkl, hml]
        rw [utamaRaw_eq, alternatifRaw_eq]
        simp only [hmc, okBind, hmn, hal, hlfld, hopt, hae, hdl2, hkb, halts,
          encodeOptStr, JsValue.nullish, jsTrimE, pureBind, Bool.false_eq_true,
          if_true, if_false, ite_true, ite_false]
        rfl⟩

/-- C1 (counterexample): the normalization step as implemented is NOT
total over everything the narrative generator can supply.  The generator
returns `JSON.parse` of the model text, so the text `"null"` yields the
value `null`, on which the plain read `aiResult.manifesting` throws; and
an object whose `manifesting.pekerjaanKarir` is a number makes
`.filter` throw.  Both throws escape the normalization code (the outer
catch then answers 500 instead of the guaranteed 200). -/
theorem normalization_throws_cex :
    normalizeAnalysis .null demoExpr demoAge .ai =
      .error "TypeError: cannot read properties of null/undefined (reading manifesting)" ∧
    normalizeAnalysis
        (.obj [("manifesting", .obj [("pekerjaanKarir", .num (qInt 5))])])
        demoExpr demoAge .ai =
      .error "TypeError: filter is not a function" := ⟨rfl, rfl⟩

/-- C1 (amended): the normalization step never throws on any runtime
value conforming to the declared `AiStructuredResult` optional-field
shape — which covers every `buildFallbackAnalysis` output and every
type-conforming generator output, including objects with absent fields;
`null` and values with non-string/non-array fields in typed positions
are excluded, as the counterexample shows they throw. -/
theorem normalization_total_on_conforming (r : AiStructuredResult)
    (e : ExpressionInsight) (a : AgeInsight) (s : MetaSource) :
    ∃ p, normalizeAnalysis (encodeAi r) e a s = .ok p :=
  normalizeAnalysis_encoded_ok r e a s

/-- C7: the age-label parser on the three example labels, and the
`"n/a"` label (no digits, no direct numeric age) driving `detectAge`
into the expression-keyed fallback preset. -/
theorem parseAgeLabel_examples :
    parseAgeLabelRange "25-32" = ⟨some 25, some 32⟩ ∧
    computeEstimatedAge ⟨some 25, some 32⟩ none = some 29 ∧
    parseAgeLabelRange "60+" = ⟨some 60, none⟩ ∧
    computeEstimatedAge ⟨some 60, none⟩ none = some 60 ∧
    parseAgeLabelRange "n/a" = ⟨none, none⟩ ∧
    ∀ e : ExpressionInsight,
      detectAge (.okBody (some (.obj [("label", .str "n/a")]))) (some e) =
        buildFallbackAgeInsight (some e) :=
  ⟨by decide, by decide, by decide, rfl, by decide, fun e => rfl⟩

/-- C5 (code bug): every failure of the age classifier — rejected fetch,
non-2xx status, malformed JSON body, a body yielding no candidate, and a
candidate with no parseable range and no direct age — hands back the
result of `buildFallbackAgeInsight`, which is the deterministic
expression-keyed preset for every ordinary companion label (a preset row
or the `default` row); but the spec's "this adapter must never raise
past its own boundary" is violated: for a companion label lowercasing to
an `Object.prototype` member name the preset selection keeps the
inherited truthy member, `preset.range.min` throws, and the catch
block's second `buildFallbackAgeInsight` call rethrows the same
`TypeError` out of `detectAge`. -/
theorem detectAge_degrades_to_preset :
    (∀ e, detectAge .netFail e = buildFallbackAgeInsight e) ∧
    (∀ d e, detectAge (.notOk d) e = buildFallbackAgeInsight e) ∧
    (∀ e, detectAge (.okBody none) e = buildFallbackAgeInsight e) ∧
    (∀ v e, extractCandidate v = none →
      detectAge (.okBody (some v)) e = buildFallbackAgeInsight e) ∧
    (∀ v c e, extractCandidate v = some c →
      parseAgeLabelRange c.label = ⟨none, none⟩ → c.directAge = none →
      detectAge (.okBody (some v)) e = buildFallbackAgeInsight e) ∧
    buildFallbackAgeInsight none = .ok (agePresetInsight defaultAgePreset) ∧
    (∀ ei, strToLower ei.label ∉ OBJECT_PROTO_KEYS →
      ∃ a, buildFallbackAgeInsight (some ei) = .ok a) ∧
    (∀ ei, strToLower ei.label ∈ OBJECT_PROTO_KEYS →
      buildFallbackAgeInsight (some ei) =
        .error "TypeError: cannot read properties of null/undefined (reading min)") := by
  refine ⟨fun e => rfl, fun d e => rfl, fun e => rfl, ?_, ?_, rfl, ?_, ?_⟩
  · intro v e h
    simp [detectAge, h]
  · intro v c e hc hr hd
    simp [detectAge, hc, hr, computeEstimatedAge, hd]
  · intro ei h
    cases hlk : FALLBACK_AGE_PRESETS.lookup (strToLower ei.label) with
    | some p =>
        refine ⟨agePresetInsight p, ?_⟩
        simp only [buildFallbackAgeInsight, hlk]
    | none =>
        refine ⟨agePresetInsight defaultAgePreset, ?_⟩
        simp only [buildFallbackAgeInsight, hlk, if_neg h]
  · intro ei h
    have hlk : FALLBACK_AGE_PRESETS.lookup (strToLower ei.label) = none := by
      simp only [OBJECT_PROTO_KEYS, List.mem_cons, List.not_mem_nil, or_false] at h
      rcases h with h|h|h|h|h|h|h|h|h|h|h|h <;> rw [h] <;> rfl
    simp only [buildFallbackAgeInsight, hlk, if_pos h]

/-- C5 counterexample: with a companion label lowercasing to
`"constructor"` or `"__proto__"`, a rejected fetch or a non-2xx answer
makes `detectAge` raise the preset lookup's `TypeError` past its own
boundary instead of degrading. -/
theorem detectAge_raises_cex :
    detectAge .netFail
        (some { narrative := "", confidence := none, label := "Constructor" }) =
      .error "TypeError: cannot read properties of null/undefined (reading min)" ∧
    detectAge (.notOk "503")
        (some { narrative := "", confidence := none, label := "__proto__" }) =
      .error "TypeError: cannot read properties of null/undefined (reading min)" :=
  ⟨rfl, rfl⟩

/-- Witness for C5 at concrete inputs: a bare string body yields no
candidate and degrades to the `happiness` preset; an ordinary label
resolves to an `ok` preset; the prototype-member label raises. -/
theorem detectAge_degrades_to_preset_witness :
    detectAge (.okBody (some (.str "x"))) (some demoExpr) =
      buildFallbackAgeInsight (some demoExpr) ∧
    (∃ a, buildFallbackAgeInsight (some demoExpr) = .ok a) ∧
    buildFallbackAgeInsight
        (some { narrative := "", confidence := none, label := "Constructor" }) =
      .error "TypeError: cannot read properties of null/undefined (reading min)" :=
  ⟨detectAge_degrades_to_preset.2.2.2.1 (.str "x") (some demoExpr) rfl,
   detectAge_degrades_to_preset.2.2.2.2.2.2.1 demoExpr (by decide),
   detectAge_degrades_to_preset.2.2.2.2.2.2.2
     { narrative := "", confidence := none, label := "Constructor" } (by decide)⟩

/-- C4 (counterexample): `detectExpression` has no `try`/`catch`, so an
actual transport failure (a rejected fetch) and a malformed (unparseable)
response body both propagate to the caller as thrown errors rather than
returning the default insight. -/
theorem detectExpression_propagates_cex :
    detectExpression .netFail = .error "TypeError: fetch failed" ∧
    detectExpression (.okBody none) =
      .error "SyntaxError: response body is not valid JSON" := ⟨rfl, rfl⟩

/-- C4 (amended): `detectExpression` returns the fixed default insight —
label `"neutral"`, placeholder confidence 0.42 for a non-2xx response and
0.40 for an empty or non-array 2xx body — on those paths only; transport
failures and JSON-parse failures instead propagate to the POST handler's
catch-all. -/
theorem detectExpression_default_insights :
    (∀ detail, detectExpression (.notOk detail) =
      .ok { narrative := DEFAULT_EXPRESSION, confidence := some (pct 42), label := "neutral" }) ∧
    detectExpression (.okBody (some (.arr []))) =
      .ok { narrative := DEFAULT_EXPRESSION, confidence := some (pct 40), label := "neutral" } ∧
    (∀ v, (∀ xs, v ≠ .arr xs) → detectExpression (.okBody (some v)) =
      .ok { narrative := DEFAULT_EXPRESSION, confidence := some (pct 40), label := "neutral" }) := by
  refine ⟨fun detail => rfl, rfl, ?_⟩
  intro v h
  cases v with
  | arr xs => exact absurd rfl (h xs)
  | null => rfl
  | undef => rfl
  | bool b => rfl
  | num q => rfl
  | str s => rfl
  | obj fields => rfl

/-- Witness for C4's amended claim at a concrete non-array body. -/
theorem detectExpression_default_insights_witness :
    detectExpression (.okBody (some (.obj [("error", .str "loading")]))) =
      .ok { narrative := DEFAULT_EXPRESSION, confidence := some (pct 40), label := "neutral" } :=
  detectExpression_default_insights.2.2 (.obj [("error", .str "loading")])
    (fun xs h => by cases h)

/-- A successful association-list lookup returns one of the stored
values. -/
theorem lookup_mem_snd {α : Type} :
    ∀ (l : List (String × α)) (k : String) (v : α),
      l.lookup k = some v → v ∈ l.map Prod.snd := by
  intro l
  induction l with
  | nil => intro k v h; cases h
  | cons p rest ih =>
      rcases p with ⟨pk, pv⟩
      intro k v h
      rw [List.lookup] at h
      cases hk : (k == pk) with
      | true => rw [hk] at h; cases h; exact List.mem_cons_self _ _
      | false =>
          rw [hk] at h
          exact List.mem_cons_of_mem _ (ih k v h)

/-- Looking a key up with a default that is itself one of the stored
values always lands among the stored values. -/
theorem lookup_getD_mem_snd {α : Type} (l : List (String × α)) (k : String)
    (d : α) (hd : d ∈ l.map Prod.snd) : (l.lookup k).getD d ∈ l.map Prod.snd := by
  cases h : l.lookup k with
  | none => simpa using hd
  | some v => simpa using lookup_mem_snd l k v h

/-- C8 (amended): `buildFallbackAnalysis` is total by construction (a
function on all of `ExpressionInsight`, its label string included) and
its primary recommendation code is always a member of the fixed
enumeration — also at labels naming `Object.prototype` members, where
`template.major ?? "RPL"` reads `undefined` off the inherited value and
defaults to RPL; but only the lowercased labels outside the prototype
member names resolve to exactly one template of the fixed table
(unmatched ones taking the `default` row): a prototype member name
resolves to the inherited truthy value instead of any table row, as the
counterexample shows. -/
theorem buildFallback_total_and_enum :
    (∀ e : ExpressionInsight, ∃ k : String,
      (((buildFallbackAnalysis e).rekomendasiJurusan.bind
          (fun rj => rj.utama)).bind (fun u => u.kode)) = some k ∧
        (k = "RPL" ∨ k = "DKV" ∨ k = "TKJ")) ∧
    (∀ label : String, label ∉ OBJECT_PROTO_KEYS →
      ∃ t, resolveFallbackTemplate label = .row t ∧
        t ∈ FALLBACK_TEMPLATES.map Prod.snd) := by
  constructor
  · intro e
    rcases hres : resolveFallbackTemplate (strToLower e.label) with t | _
    · refine ⟨codeStr t.major, ?_, ?_⟩
      · unfold buildFallbackAnalysis
        rw [hres]
        rfl
      · cases t.major <;> simp [codeStr]
    · refine ⟨"RPL", ?_, Or.inl rfl⟩
      unfold buildFallbackAnalysis
      rw [hres]
      rfl
  · intro label hnp
    cases hlk : FALLBACK_TEMPLATES.lookup label with
    | some t =>
        exact ⟨t, by simp [resolveFallbackTemplate, hlk], lookup_mem_snd _ _ _ hlk⟩
    | none =>
        refine ⟨defaultFallbackTemplate, ?_, by simp [FALLBACK_TEMPLATES]⟩
        simp [resolveFallbackTemplate, hlk, hnp]

/-- C8 counterexample: the labels `"constructor"` and `"__proto__"` are
own keys of no template row, yet their `FALLBACK_TEMPLATES[label]` read
yields the truthy inherited `Object.prototype` member, so the `??` does
not fall through to the `default` row: the resolution is no table row at
all, and the built analysis carries the per-field defaults (primary RPL)
with the template-sourced fields absent. -/
theorem fallbackTemplate_proto_cex :
    resolveFallbackTemplate "constructor" = .inherited ∧
    resolveFallbackTemplate "__proto__" = .inherited ∧
    (FALLBACK_TEMPLATES.map Prod.fst).contains "constructor" = false ∧
    (FALLBACK_TEMPLATES.map Prod.fst).contains "__proto__" = false ∧
    (buildFallbackAnalysis
        { narrative := "n", confidence := none, label := "Constructor" }).expressionSummary =
      some { headline := some "n", energyTone := none,
             personalityHighlight := none, confidenceModifier := some (pct (-10)) } ∧
    (buildFallbackAnalysis
        { narrative := "n", confidence := none, label := "Constructor" }).manifesting =
      some { pekerjaanKarir := none, masaDepan := none } ∧
    ((buildFallbackAnalysis
        { narrative := "n", confidence := none, label := "Constructor" }).rekomendasiJurusan.bind
        (fun rj => rj.utama)).bind (fun u => u.kode) = some "RPL" :=
  ⟨rfl, rfl, by decide, by decide, rfl, rfl, rfl⟩

/-- Witness for C8 at concrete inputs: the demo insight's primary code,
and the ordinary label `"neutral"` resolving to its own table row. -/
theorem buildFallback_total_and_enum_witness :
    (∃ k : String,
      (((buildFallbackAnalysis demoExpr).rekomendasiJurusan.bind
          (fun rj => rj.utama)).bind (fun u => u.kode)) = some k ∧
        (k = "RPL" ∨ k = "DKV" ∨ k = "TKJ")) ∧
    ∃ t, resolveFallbackTemplate "neutral" = .row t ∧
      t ∈ FALLBACK_TEMPLATES.map Prod.snd :=
  ⟨buildFallback_total_and_enum.1 demoExpr,
   buildFallback_total_and_enum.2 "neutral" (by decide)⟩

/-- Inverting one successful `Except` bind. -/
theorem bind_ok_exists {α β : Type} {x : Except String α}
    {f : α → Except String β} {b : β} (h : (x >>= f) = .ok b) :
    ∃ a, x = .ok a ∧ f a = .ok b := by
  cases x with
  | ok a => exact ⟨a, rfl, h⟩
  | error e => cases h

/-- Every successful normalization carries the requested `meta.source`,
no `cached` flag, and an alternative list produced by the dedup-and-pad
loops seeded with the primary code. -/
theorem normalizeAnalysis_ok_meta (v : JsValue) (e : ExpressionInsight)
    (a : AgeInsight) (s : MetaSource) (p : AnalysisPayload)
    (h : normalizeAnalysis v e a s = .ok p) :
    p.meta = { source := s, cached := none } ∧
      ∃ ais, p.rekomendasiJurusan.alternatif =
        buildAlternatif p.rekomendasiJurusan.utama.kode ais := by
  unfold normalizeAnalysis at h
  repeat'
    first
    | (obtain ⟨a, ha, h⟩ := bind_ok_exists h)
    | split at h
  all_goals cases h
  all_goals exact ⟨rfl, _, rfl⟩

/-- A code already seen never reappears among the deduplicated
AI-supplied alternatives. -/
theorem count_dedupe_zero (c : MajorCode) :
    ∀ (ais : List AltOut) (seen : List MajorCode), c ∈ seen →
      ((dedupeLoop ais seen).map AltOut.kode).count c = 0 := by
  intro ais
  induction ais with
  | nil => intro seen _; rfl
  | cons a as ih =>
      intro seen hc
      rw [dedupeLoop]
      by_cases ha : a.kode ∈ seen
      · rw [if_pos ha]; exact ih seen hc
      · rw [if_neg ha]
        have hne : ¬(a.kode = c) := fun h => ha (h ▸ hc)
        simp only [List.map_cons, List.count_cons]
        rw [ih (a.kode :: seen) (List.mem_cons_of_mem _ hc)]
        simp [hne]

/-- Each code appears at most once among the deduplicated AI-supplied
alternatives. -/
theorem count_dedupe_le_one (c : MajorCode) :
    ∀ (ais : List AltOut) (seen : List MajorCode),
      ((dedupeLoop ais seen).map AltOut.kode).count c ≤ 1 := by
  intro ais
  induction ais with
  | nil => intro seen; simp [dedupeLoop]
  | cons a as ih =>
      intro seen
      rw [dedupeLoop]
      by_cases ha : a.kode ∈ seen
      · rw [if_pos ha]; exact ih seen
      · rw [if_neg ha]
        by_cases hac : a.kode = c
        · simp only [List.map_cons, List.count_cons, hac]
          rw [count_dedupe_zero c as (c :: seen) (List.mem_cons_self _ _)]
          simp
        · simp only [List.map_cons, List.count_cons]
          have := ih (a.kode :: seen)
          simpa [hac] using this

/-- Membership in the final `seen` set is membership in the initial set
or among the deduplicated output codes. -/
theorem mem_seenAfter_iff (c : MajorCode) :
    ∀ (ais : List AltOut) (seen : List MajorCode),
      (c ∈ seenAfter ais seen ↔
        c ∈ seen ∨ c ∈ (dedupeLoop ais seen).map AltOut.kode) := by
  intro ais
  induction ais with
  | nil => intro seen; simp [seenAfter, dedupeLoop]
  | cons a as ih =>
      intro seen
      rw [seenAfter, dedupeLoop]
      by_cases ha : a.kode ∈ seen
      · rw [if_pos ha, if_pos ha]; exact ih seen
      · rw [if_neg ha, if_neg ha]
        rw [ih (a.kode :: seen)]
        simp only [List.map_cons, List.mem_cons]
        tauto

/-- Padding over the concrete three-code enumeration contributes each
unseen code exactly once. -/
theorem count_pad_major (seen : List MajorCode) (c : MajorCode) :
    ((padLoop MAJOR_CODES seen).map AltOut.kode).count c =
      if c ∈ seen then 0 else 1 := by
  by_cases h1 : MajorCode.RPL ∈ seen <;> by_cases h2 : MajorCode.DKV ∈ seen <;>
    by_cases h3 : MajorCode.TKJ ∈ seen <;> cases c <;>
      simp [padLoop, MAJOR_CODES, h1, h2, h3, List.count_cons, List.mem_cons]

/-- The alternative list produced by the normalization loops contains
every enumeration code exactly once besides the primary. -/
theorem buildAlternatif_count (prim : MajorCode) (ais : List AltOut) (c : MajorCode) :
    (prim :: (buildAlternatif prim ais).map AltOut.kode).count c = 1 := by
  unfold buildAlternatif
  rw [List.map_append, List.count_cons, List.count_append]
  by_cases hpc : c = prim
  · subst hpc
    rw [count_dedupe_zero c ais [c] (List.mem_cons_self _ _), count_pad_major]
    have hmem : c ∈ seenAfter ais [c] :=
      (mem_seenAfter_iff c ais [c]).2 (Or.inl (List.mem_cons_self _ _))
    simp [hmem]
  · have hprim0 : (if prim == c then 1 else 0) = 0 := by
      simp [BEq.beq]
      intro h
      exact absurd h.symm hpc
    by_cases hd : c ∈ (dedupeLoop ais [prim]).map AltOut.kode
    · have h1 : ((dedupeLoop ais [prim]).map AltOut.kode).count c = 1 :=
        le_antisymm (count_dedupe_le_one c ais [prim]) (List.count_pos_iff.2 hd)
      have hseen : c ∈ seenAfter ais [prim] :=
        (mem_seenAfter_iff c ais [prim]).2 (Or.inr hd)
      rw [h1, count_pad_major]
      simp only [hseen, if_pos, if_true]
      omega
    · have h0 : ((dedupeLoop ais [prim]).map AltOut.kode).count c = 0 :=
        List.count_eq_zero.2 hd
      have hseen : c ∉ seenAfter ais [prim] := by
        rw [mem_seenAfter_iff]
        rintro (h | h)
        · rcases List.mem_cons.1 h with h | h
          · exact hpc h
          · cases h
        · exact hd h
      rw [h0, count_pad_major]
      simp only [hseen, if_neg, if_false]
      omega

/-- A list of enumeration codes is as long as its three member counts
combined. -/
theorem length_eq_count_sum :
    ∀ l : List MajorCode,
      l.length = l.count .RPL + l.count .DKV + l.count .TKJ := by
  intro l
  induction l with
  | nil => rfl
  | cons c cs ih =>
      cases c <;> simp [List.count_cons, ih] <;> omega

/-- C9: feeding the fallback template output through the normalization
step always succeeds and yields one primary track plus exactly two
alternatives, with each of the three enumeration codes appearing exactly
once across primary and alternatives. -/
theorem fallback_roundtrip_coverage (e : ExpressionInsight) (a : AgeInsight) :
    ∃ p, normalizeAnalysis (encodeAi (buildFallbackAnalysis e)) e a .fallback = .ok p ∧
      p.rekomendasiJurusan.alternatif.length = 2 ∧
      ∀ c : MajorCode,
        (p.rekomendasiJurusan.utama.kode ::
          p.rekomendasiJurusan.alternatif.map AltOut.kode).count c = 1 := by
  obtain ⟨p, heq⟩ :=
    normalizeAnalysis_encoded_ok (buildFallbackAnalysis e) e a .fallback
  obtain ⟨-, ais, hshape⟩ := normalizeAnalysis_ok_meta _ _ _ _ _ heq
  refine ⟨p, heq, ?_, ?_⟩
  · have hlen : (p.rekomendasiJurusan.utama.kode ::
        p.rekomendasiJurusan.alternatif.map AltOut.kode).length = 3 := by
      rw [length_eq_count_sum]
      rw [hshape]
      rw [buildAlternatif_count, buildAlternatif_count, buildAlternatif_count]
    have : p.rekomendasiJurusan.alternatif.length + 1 = 3 := by
      simpa using hlen
    omega
  · intro c
    rw [hshape]
    exact buildAlternatif_count _ _ c

/-- A demo request body with a syntactically valid data-URL image. -/
def demoBody : JsValue := .obj [("image", .str "data:image/png;base64,aGVsbG8=")]

/-- The pruned in-window timestamp list of one client's bucket. -/
def prunedBucket (st : ServerState) (key : String) (now : Int) : List Int :=
  ((st.rateBuckets.lookup key).getD []).filter
    (fun ts => now - RATE_LIMIT_WINDOW_MS < ts)

/-- Successive `checkRateLimit` outcomes for one key at the given
times (true = rejected). -/
def simulateRequests (key : String) : List Int → ServerState → List Bool
  | [], _ => []
  | t :: ts, st =>
      let r := checkRateLimit key t st
      r.1 :: simulateRequests key ts r.2

/-- C2: whenever the pruned in-window timestamp count for a client key
has reached the cap, a valid request from that key is answered 429 and
the bucket is persisted as exactly the pruned set — no new timestamp is
appended; and, concretely, seven requests from one key inside one
60-second window admit the first six and reject the seventh. -/
theorem rateLimit_cap_rejects :
    (∀ (jsonParse : String → Option JsValue) (key : String) (bodyV : JsValue)
        (now : Int) (ups : Upstreams) (st : ServerState)
        (s pre b64 : String) (rest : List String),
      jsGet bodyV "image" = .str s →
      s.isEmpty = false →
      splitOnChar ',' s = pre :: b64 :: rest →
      b64 ≠ "" →
      (prunedBucket st key now).length = RATE_LIMIT_MAX →
      postHandler jsonParse true key (some bodyV) now ups st =
        (.tooMany "Terlalu banyak analisis dalam waktu singkat. Coba lagi dalam beberapa detik.",
         { st with rateBuckets := mapSet st.rateBuckets key (prunedBucket st key now) })) ∧
    simulateRequests "k" [0, 10, 20, 30, 40, 50, 59] emptyState =
      [false, false, false, false, false, false, true] := by
  constructor
  · intro jsonParse key bodyV now ups st s pre b64 rest hImg hse hs hb hcap
    have hie : s.isEmpty = false := hse
    have hbody : bodyV.nullish = false := by
      cases bodyV <;> first | rfl | (exact absurd hImg (by intro h; cases h))
    simp only [prunedBucket] at hcap
    simp only [postHandler, Bool.not_true, Bool.false_or, hbody, hImg,
      JsValue.truthy, JsValue.isStr, hie, jsToString, hs, Bool.not_false,
      Bool.not_eq_true, checkRateLimit, hcap, prunedBucket]
    rw [if_neg hb]
    simp
  · rfl

/-- Witness for C2 at a concrete saturated bucket. -/
theorem rateLimit_cap_rejects_witness :
    postHandler noParse true "k" (some demoBody) 59 demoUps
        ⟨[("k", [0, 10, 20, 30, 40, 50])], []⟩ =
      (.tooMany "Terlalu banyak analisis dalam waktu singkat. Coba lagi dalam beberapa detik.",
       ⟨[("k", [0, 10, 20, 30, 40, 50])], []⟩) := by
  have h := rateLimit_cap_rejects.1 noParse "k" demoBody 59 demoUps
    ⟨[("k", [0, 10, 20, 30, 40, 50])], []⟩
    "data:image/png;base64,aGVsbG8=" "data:image/png;base64" "aGVsbG8=" []
    rfl (by decide) (by decide) (by decide) (by decide)
  exact h.trans (by rfl)

/-- The full pipeline never answers 400: its outcomes are 500 (expression
or age propagation or normalization throw) or 200. -/
theorem runPipeline_no_badRequest (jsonParse : String → Option JsValue)
    (ups : Upstreams) (imageHash : String) (now : Int) (st : ServerState)
    (m : String) (st2 : ServerState) :
    runPipeline jsonParse ups imageHash now st ≠ (.badRequest m, st2) := by
  intro h
  unfold runPipeline at h
  rcases hde : detectExpression ups.expr with msg | expr <;> simp only [hde] at h
  · simp [Prod.ext_iff] at h
  · rcases hda : detectAge ups.age (some expr) with am | ai <;> simp only [hda] at h
    · simp [Prod.ext_iff] at h
    · rcases hg : generateFaceReading jsonParse ups.gen with gm | gv <;>
        simp only [hg] at h
      · rcases hn : normalizeAnalysis (encodeAi (buildFallbackAnalysis expr)) expr
            ai MetaSource.fallback with nm | np <;>
          simp only [hn] at h <;> simp [Prod.ext_iff] at h
      · rcases hn : normalizeAnalysis gv expr ai MetaSource.ai with nm | np <;>
          simp only [hn] at h <;> simp [Prod.ext_iff] at h


/-- C10: a request answered 400 (missing or malformed image) leaves the
shared state untouched — validation runs before the rate-limit check and
the cache write, so no admission slot is consumed and nothing is cached. -/
theorem badRequest_leaves_state (jsonParse : String → Option JsValue)
    (hasTokens : Bool) (key : String) (body : Option JsValue) (now : Int)
    (ups : Upstreams) (st : ServerState) (m : String) (st2 : ServerState)
    (h : postHandler jsonParse hasTokens key body now ups st = (.badRequest m, st2)) :
    st2 = st := by
  unfold postHandler at h
  repeat'
    first
    | split at h
    | exact absurd h (runPipeline_no_badRequest _ _ _ _ _ _ _)
    | exact (congrArg Prod.snd h).symm
    | exact absurd (congrArg Prod.fst h) (by simp)

/-- Witness for C10 at a concrete invalid body (a numeric `image`). -/
theorem badRequest_leaves_state_witness :
    postHandler noParse true "k" (some (.obj [("image", .num (qInt 5))])) 0 demoUps
        emptyState =
      (.badRequest "Gambar tidak ditemukan di permintaan.", emptyState) ∧
    (postHandler noParse true "k" (some (.obj [("image", .num (qInt 5))])) 0 demoUps
        emptyState).2 = emptyState := by
  refine ⟨rfl, ?_⟩
  exact badRequest_leaves_state noParse true "k" (some (.obj [("image", .num (qInt 5))]))
    0 demoUps emptyState "Gambar tidak ditemukan di permintaan." _ rfl

/-- The cache entry the handler would replay: the stored entry if it
exists and is still inside the TTL, else nothing. -/
def cacheFreshAt (st : ServerState) (h : String) (now : Int) : Option CacheEntry :=
  match st.analysisCache.lookup h with
  | some e => if now - e.timestamp < CACHE_TTL_MS then some e else none
  | none => none

/-- C6: when the run reaches the narrative generator (expression and age
classification completed) and the adapter raises — and it raises on
every failing outcome: rejected fetch, non-2xx response, unparseable
response envelope, empty content, unparseable content JSON — the POST
handler substitutes the deterministic fallback template and still
answers 200 with `meta.source = "fallback"`; the adapter itself performs
no fallback (each failing outcome is an `Except.error`, never a
structured result). -/
theorem generator_failure_falls_back :
    (∀ (jsonParse : String → Option JsValue) (key : String) (bodyV : JsValue)
        (now : Int) (ups : Upstreams) (st : ServerState)
        (s pre b64 : String) (rest : List String) (e0 : ExpressionInsight)
        (a0 : AgeInsight) (gm : String),
      jsGet bodyV "image" = .str s →
      s.isEmpty = false →
      splitOnChar ',' s = pre :: b64 :: rest →
      b64 ≠ "" →
      (prunedBucket st key now).length < RATE_LIMIT_MAX →
      cacheFreshAt st (sha256Hex b64) now = none →
      detectExpression ups.expr = .ok e0 →
      detectAge ups.age (some e0) = .ok a0 →
      generateFaceReading jsonParse ups.gen = .error gm →
      ∃ p st2, postHandler jsonParse true key (some bodyV) now ups st =
          (.success p now, st2) ∧ p.meta.source = .fallback) ∧
    (∀ jp, generateFaceReading jp .netFail = .error "TypeError: fetch failed") ∧
    (∀ jp status detail, generateFaceReading jp (.notOk status detail) =
      .error (togetherErrorMessage status detail)) ∧
    (∀ jp, generateFaceReading jp (.okBody none) =
      .error "SyntaxError: response body is not valid JSON") ∧
    (∀ jp (payload : JsValue),
      (jsGetOpt (jsGetOpt (jsIndex0Opt (jsGetOpt payload "choices")) "message")
          "content").nullish = true →
      generateFaceReading jp (.okBody (some payload)) =
        .error "Model tidak mengembalikan hasil.") ∧
    (∀ (jp : String → Option JsValue) (payload : JsValue) (s : String),
      jsGetOpt (jsGetOpt (jsIndex0Opt (jsGetOpt payload "choices")) "message")
          "content" = .str s →
      strTrim s ≠ "" →
      jp (strTrim (((strTrim s).replace "```json" "").replace "```" "")) = none →
      generateFaceReading jp (.okBody (some payload)) =
        .error "Gagal memahami hasil AI. Coba ulangi analisis.") := by
  refine ⟨?_, fun jp => rfl, fun jp status detail => rfl, fun jp => rfl, ?_, ?_⟩
  · intro jsonParse key bodyV now ups st s pre b64 rest e0 a0 gm
      hImg hse hs hb hlt hfresh hexpr hage hgen
    have hbody : bodyV.nullish = false := by
      cases bodyV <;> first | rfl | (exact absurd hImg (by intro h; cases h))
    obtain ⟨p, hp⟩ := normalizeAnalysis_encoded_ok (buildFallbackAnalysis e0) e0
      a0 .fallback
    obtain ⟨hmeta, -⟩ := normalizeAnalysis_ok_meta _ _ _ _ _ hp
    have hrl : checkRateLimit key now st =
        (false, { st with rateBuckets := mapSet st.rateBuckets key (prunedBucket st key now ++ [now]) }) := by
      unfold checkRateLimit prunedBucket
      rw [if_neg (by simp only [prunedBucket] at hlt; omega)]
    refine ⟨p, { rateBuckets := mapSet st.rateBuckets key (prunedBucket st key now ++ [now]), analysisCache := mapSet st.analysisCache (sha256Hex b64) ⟨now, p⟩ }, ?_, ?_⟩
    · simp only [postHandler, Bool.not_true, hbody, hImg, JsValue.truthy,
        JsValue.isStr, hse, jsToString, hs, Bool.not_false, hrl]
      rw [if_neg hb]
      unfold cacheFreshAt at hfresh
      rcases hlk : st.analysisCache.lookup (sha256Hex b64) with _ | entry
      · simp only [Bool.false_eq_true, Bool.or_self, if_false, runPipeline,
          hexpr, hage, hgen, hp]
      · rw [hlk] at hfresh
        have hcond : ¬(now - entry.timestamp < CACHE_TTL_MS) := by
          intro hc
          simp only [if_pos hc] at hfresh
          exact Option.noConfusion hfresh
        simp only [Bool.false_eq_true, Bool.or_self, if_false, if_neg hcond,
          runPipeline, hexpr, hage, hgen, hp]
    · rw [hmeta]
  · intro jp payload hnull
    simp only [generateFaceReading, hnull]
    rfl
  · intro jp payload s hc hne hparse
    simp only [generateFaceReading, hc, JsValue.nullish, Bool.false_eq_true,
      if_false, jsTrimE, okBind]
    rw [if_neg hne, hparse]

/-- Witness for C6 at a concrete request: classifiers answer non-2xx,
the generator's fetch rejects, and the POST handler still answers 200
with the fallback source. -/
theorem generator_failure_falls_back_witness :
    ∃ p st2, postHandler noParse true "k" (some demoBody) 0 demoUps emptyState =
        (.success p 0, st2) ∧ p.meta.source = .fallback :=
  generator_failure_falls_back.1 noParse "k" demoBody 0 demoUps emptyState
    "data:image/png;base64,aGVsbG8=" "data:image/png;base64" "aGVsbG8=" []
    { narrative := DEFAULT_EXPRESSION, confidence := some (pct 42), label := "neutral" }
    (agePresetInsight ((FALLBACK_AGE_PRESETS.lookup "neutral").getD defaultAgePreset))
    "TypeError: fetch failed"
    rfl rfl rfl (by decide) (by decide) rfl rfl rfl rfl

/-- `checkRateLimit` only touches the rate buckets, never the cache. -/
theorem checkRateLimit_snd_cache (key : String) (now : Int) (st : ServerState) :
    (checkRateLimit key now st).2.analysisCache = st.analysisCache := by
  simp only [checkRateLimit]
  split <;> rfl

/-- `Map.set` followed by `Map.get` at the same key yields the stored
value. -/
theorem lookup_mapSet_self {α : Type} (m : List (String × α)) (k : String) (v : α) :
    (mapSet m k v).lookup k = some v := by
  induction m with
  | nil => simp [mapSet, List.lookup]
  | cons hd tl ih =>
      obtain ⟨k0, v0⟩ := hd
      by_cases hk : k0 = k
      · simp [mapSet, hk, List.lookup]
      · have hbeq : (k == k0) = false := by
          rw [beq_eq_false_iff_ne]
          exact Ne.symm hk
        simp [mapSet, hk, List.lookup, hbeq, ih]

/-- A successful pipeline run happened at the requested time, stored the
fresh payload under the image hash with the current timestamp, and left
`meta.cached` unset. -/
theorem runPipeline_success_inv (jp : String → Option JsValue) (ups : Upstreams)
    (hash : String) (now : Int) (st : ServerState) (p : AnalysisPayload)
    (now2 : Int) (st2 : ServerState)
    (hr : runPipeline jp ups hash now st = (.success p now2, st2)) :
    now2 = now ∧
      st2 = { st with analysisCache := mapSet st.analysisCache hash ⟨now, p⟩ } ∧
      p.meta.cached = none := by
  unfold runPipeline at hr
  rcases hde : detectExpression ups.expr with m | e <;> simp only [hde] at hr
  · exact absurd (congrArg Prod.fst hr) (by simp)
  · rcases hda : detectAge ups.age (some e) with am | ai <;> simp only [hda] at hr
    · exact absurd (congrArg Prod.fst hr) (by simp)
    · rcases hg : generateFaceReading jp ups.gen with m | v <;> simp only [hg] at hr
      · rcases hn : normalizeAnalysis (encodeAi (buildFallbackAnalysis e)) e
            ai .fallback with m2 | bp <;>
          simp only [hn] at hr
        · exact absurd (congrArg Prod.fst hr) (by simp)
        · obtain ⟨hmeta, -⟩ := normalizeAnalysis_ok_meta _ _ _ _ _ hn
          simp only [Prod.mk.injEq, PostResult.success.injEq] at hr
          obtain ⟨⟨hbp, hnw⟩, hst⟩ := hr
          subst hbp
          subst hnw
          exact ⟨rfl, hst.symm, by rw [hmeta]⟩
      · rcases hn : normalizeAnalysis v e ai .ai with m2 | bp <;>
          simp only [hn] at hr
        · exact absurd (congrArg Prod.fst hr) (by simp)
        · obtain ⟨hmeta, -⟩ := normalizeAnalysis_ok_meta _ _ _ _ _ hn
          simp only [Prod.mk.injEq, PostResult.success.injEq] at hr
          obtain ⟨⟨hbp, hnw⟩, hst⟩ := hr
          subst hbp
          subst hnw
          exact ⟨rfl, hst.symm, by rw [hmeta]⟩

/-- C3: when a first POST with a valid image is answered from a full
analysis (no fresh cache entry existed), a second POST with the
byte-identical payload arriving within the cache TTL and not
rate-limited replays the stored payload: it succeeds with exactly the
first payload except that `meta.cached` flips from unset to `true` (all
other fields — expression, age, recommendation, `meta.source` — are
identical) and the new `generatedAt` timestamp, and the replay leaves
the stored cache entry unchanged. -/
theorem cache_replay_within_ttl
    (jp1 jp2 : String → Option JsValue) (key1 key2 : String) (bodyV : JsValue)
    (now1 now2 : Int) (ups1 ups2 : Upstreams) (st st1 : ServerState)
    (s pre b64 : String) (rest : List String) (p : AnalysisPayload)
    (hImg : jsGet bodyV "image" = .str s)
    (hse : s.isEmpty = false)
    (hs : splitOnChar ',' s = pre :: b64 :: rest)
    (hb : b64 ≠ "")
    (hfresh : cacheFreshAt st (sha256Hex b64) now1 = none)
    (hpost : postHandler jp1 true key1 (some bodyV) now1 ups1 st =
      (.success p now1, st1))
    (hlt2 : (prunedBucket st1 key2 now2).length < RATE_LIMIT_MAX)
    (hTTL : now2 - now1 < CACHE_TTL_MS) :
    ∃ st2,
      postHandler jp2 true key2 (some bodyV) now2 ups2 st1 =
        (.success (markCached p) now2, st2) ∧
      st2.analysisCache = st1.analysisCache ∧
      p.meta.cached = none ∧
      (markCached p).expression = p.expression ∧
      (markCached p).age = p.age ∧
      (markCached p).rekomendasiJurusan = p.rekomendasiJurusan ∧
      (markCached p).meta.source = p.meta.source ∧
      (markCached p).meta.cached = some true := by
  have hbody : bodyV.nullish = false := by
    cases bodyV <;> first | rfl | (exact absurd hImg (by intro h; cases h))
  simp only [postHandler, Bool.not_true, hbody, hImg, JsValue.truthy,
    JsValue.isStr, hse, jsToString, hs, Bool.not_false, Bool.false_eq_true,
    Bool.or_self, if_false] at hpost
  rw [if_neg hb] at hpost
  rcases hcrl : checkRateLimit key1 now1 st with ⟨limited, stA⟩
  rw [hcrl] at hpost
  have hsc : stA.analysisCache = st.analysisCache := by
    have h0 := checkRateLimit_snd_cache key1 now1 st
    rw [hcrl] at h0
    exact h0
  cases limited
  case true =>
    simp only [] at hpost
    exact absurd (congrArg Prod.fst hpost) (by simp)
  case false =>
  simp only [] at hpost
  rw [hsc] at hpost
  unfold cacheFreshAt at hfresh
  have hrun : runPipeline jp1 ups1 (sha256Hex b64) now1 stA =
      (.success p now1, st1) := by
    rcases hlk : st.analysisCache.lookup (sha256Hex b64) with _ | entry
    · rw [hlk] at hpost
      simp only [] at hpost
      exact hpost
    · rw [hlk] at hfresh hpost
      have hcond : ¬(now1 - entry.timestamp < CACHE_TTL_MS) := by
        intro hc
        simp only [if_pos hc] at hfresh
        exact Option.noConfusion hfresh
      simp only [if_neg hcond] at hpost
      exact hpost
  obtain ⟨-, hst1, hcached⟩ := runPipeline_success_inv _ _ _ _ _ _ _ _ hrun
  have hstore : st1.analysisCache.lookup (sha256Hex b64) = some ⟨now1, p⟩ := by
    rw [hst1]
    exact lookup_mapSet_self stA.analysisCache (sha256Hex b64) ⟨now1, p⟩
  have hrl2 : checkRateLimit key2 now2 st1 =
      (false, { st1 with rateBuckets := mapSet st1.rateBuckets key2 (prunedBucket st1 key2 now2 ++ [now2]) }) := by
    unfold checkRateLimit prunedBucket
    rw [if_neg (by simp only [prunedBucket] at hlt2; omega)]
  refine ⟨{ st1 with rateBuckets := mapSet st1.rateBuckets key2 (prunedBucket st1 key2 now2 ++ [now2]) },
    ?_, rfl, hcached, rfl, rfl, rfl, rfl, rfl⟩
  simp only [postHandler, Bool.not_true, hbody, hImg, JsValue.truthy,
    JsValue.isStr, hse, jsToString, hs, Bool.not_false, Bool.false_eq_true,
    Bool.or_self, if_false, hrl2]
  rw [if_neg hb]
  simp only [hstore]
  rw [if_pos hTTL]

/-- The full first-request outcome for the demo image at time 0. -/
def firstRun : PostResult × ServerState :=
  postHandler noParse true "k" (some demoBody) 0 demoUps emptyState

/-- Witness for C3 at a concrete pair of requests: the demo image is
analysed at time 0 and replayed from cache at time 1. -/
theorem cache_replay_within_ttl_witness :
    ∃ st2,
      postHandler noParse true "k" (some demoBody) 1 demoUps firstRun.2 =
        (.success (markCached (payloadOf firstRun.1)) 1, st2) ∧
      st2.analysisCache = firstRun.2.analysisCache ∧
      (payloadOf firstRun.1).meta.cached = none ∧
      (markCached (payloadOf firstRun.1)).expression = (payloadOf firstRun.1).expression ∧
      (markCached (payloadOf firstRun.1)).age = (payloadOf firstRun.1).age ∧
      (markCached (payloadOf firstRun.1)).rekomendasiJurusan = (payloadOf firstRun.1).rekomendasiJurusan ∧
      (markCached (payloadOf firstRun.1)).meta.source = (payloadOf firstRun.1).meta.source ∧
      (markCached (payloadOf firstRun.1)).meta.cached = some true :=
  cache_replay_within_ttl noParse noParse "k" "k" demoBody 0 1 demoUps demoUps
    emptyState firstRun.2 "data:image/png;base64,aGVsbG8=" "data:image/png;base64"
    "aGVsbG8=" [] (payloadOf firstRun.1)
    rfl rfl rfl (by decide) rfl (by rfl) (by decide) (by decide)
